import Mathlib

/-!
# xfce-screenshooter (IPFS support): save-name generator and upload job

A shallow embedding of `lib/screenshooter-dialogs.c` (`generate_filename_for_uri`,
`screenshooter_save_screenshot`, `set_default_item`,
`cb_show_save_dialog_toggled`) and of
`lib/screenshooter-ipfs.c` (`get_image_url`, `ipfs_upload_job`), with the
properties of the specification stated and proved over it.

Conventions of the embedding:

* a C string pointer `gchar *` is an `Option String` where the pointer may be
  `NULL`, a `String` otherwise;
* the file system is the function answering
  `g_file_test (path, G_FILE_TEST_EXISTS)`;
* a `gint` is an `Int` kept in the 32-bit two's complement range by an explicit
  wrap after `++i`;
* loops that C leaves unbounded take a fuel argument counting the iterations
  they may run; `none` means the fuel ran out with the loop still going;
* side effects are recorded, in program order, in a list of actions.
-/

namespace Screenshooter

/-! ## Library functions used by the sources -/

/-- Modelled from the spec: the `_()` message macro is declared in a header that
is not part of the sources; the specification quotes every message and file name
literally, so the untranslated catalogue is taken. -/
def gettext (msgid : String) : String := msgid

/-- The directory separator `G_DIR_SEPARATOR` on Unix. -/
def isSep (c : Char) : Bool := c == '/'

/-- The state of GLib's `g_build_path_va` while it walks over the elements. -/
structure BuildState where
  /-- The text accumulated so far. -/
  result : List Char
  /-- No element has contributed a component yet. -/
  is_first : Bool
  /-- The leading separators of the first non-empty element are in. -/
  have_leading : Bool
  /-- Set while the only non-empty element seen consists of separators. -/
  single_element : Option (List Char)
  /-- The trailing separators of the last non-empty element. -/
  last_trailing : List Char
deriving DecidableEq

/-- One round of the element loop of GLib's `g_build_path_va` with the one
character separator `/`: empty elements are skipped, the leading separators of
the first non-empty element are kept, every element is stripped of its leading
and trailing separators and the components are joined by one separator. -/
def buildStep (st : BuildState) (element : List Char) : BuildState :=
  if element = [] then st
  else
    let start := element.dropWhile isSep
    let core := (start.reverse.dropWhile isSep).reverse
    let trailing := if core = [] then element else (start.reverse.takeWhile isSep).reverse
    let st1 : BuildState :=
      if st.have_leading then { st with single_element := none, last_trailing := trailing }
      else
        { st with
          result := st.result ++ element.takeWhile isSep
          have_leading := true
          single_element := if core = [] then some element else st.single_element
          last_trailing := trailing }
    if core = [] then st1
    else
      { st1 with
        result := (if st1.is_first then st1.result else st1.result ++ ['/']) ++ core
        is_first := false }

/-- GLib's `g_build_path_va` for the separator `/`. -/
def g_build_path (elements : List (List Char)) : List Char :=
  let st := elements.foldl buildStep ⟨[], true, false, none, []⟩
  match st.single_element with
  | some e => e
  | none => st.result ++ st.last_trailing

/-- The call `g_build_filename (uri, basename, NULL)` of the sources. -/
def g_build_filename (uri basename : String) : String :=
  String.mk (g_build_path [uri.data, basename.data])

/-- What `g_build_path` puts in front of a last element that neither starts nor
ends with a separator: the first element without its trailing separators,
followed by one separator when it has a component. -/
def dirPrefix (uri : List Char) : List Char :=
  let st := buildStep ⟨[], true, false, none, []⟩ uri
  if st.is_first then st.result else st.result ++ ['/']

/-- The largest value of a `gint`. -/
def G_MAXINT : Int := 2147483647

/-- The value a `gint` holds after an arithmetic result `x` is stored in it:
`x` reduced to the 32-bit two's complement range. -/
def wrapInt (x : Int) : Int := (x + 2147483648) % 4294967296 - 2147483648

/-- The conversion `%d` of `printf`. -/
def formatInt (i : Int) : String := toString i

/-- The call `g_strdup_printf (_("Screenshot-%d.png"), i)`: the message has the
single conversion `%d`. -/
def g_strdup_printf_screenshot (i : Int) : String :=
  "Screenshot-" ++ formatInt i ++ ".png"

/-! ## `generate_filename_for_uri` (screenshooter-dialogs.c) -/

/-- What a call that returned left behind: the returned pointer and the paths
probed with `g_file_test`, in order. -/
structure Generated where
  /-- The returned file name, `none` for `NULL`. -/
  name : Option String
  /-- The paths handed to `g_file_test`, oldest first. -/
  probes : List String
deriving DecidableEq

/-- The loop `for (i = 1; exists; ++i)` of `generate_filename_for_uri`, entered
with the counter at `i` and `exists` true: each round formats the candidate,
probes it and, when the path is free, leaves with the candidate; the `++i` that
still runs after that round touches only the counter, which is not read again.
Signed overflow of `++i` is taken as the two's complement wrap. -/
def searchLoop (fs : String → Bool) (uri : String) :
    Nat → Int → List String → Option Generated
  | 0, _, _ => none
  | fuel + 1, i, probes =>
    let basename := g_strdup_printf_screenshot i
    let filename := g_build_filename uri basename
    if !fs filename then some ⟨some basename, probes ++ [filename]⟩
    else searchLoop fs uri fuel (wrapInt (i + 1)) (probes ++ [filename])

/-- The function `generate_filename_for_uri`: `NULL` for a `NULL` directory,
`Screenshot.png` when that path is free, otherwise the result of the loop. -/
def generate_filename_for_uri (fs : String → Bool) (fuel : Nat) :
    Option String → Option Generated
  | none => some ⟨none, []⟩
  | some uri =>
    let basename := gettext "Screenshot.png"
    let filename := g_build_filename uri basename
    if !fs filename then some ⟨some basename, [filename]⟩
    else searchLoop fs uri fuel 1 [filename]

/-- The on-disk state of a directory `uri` that holds exactly `Screenshot.png`,
`Screenshot-1.png`, …, `Screenshot-k.png`. -/
def numberedDir (uri : String) (k : Nat) (path : String) : Bool :=
  path == g_build_filename uri (gettext "Screenshot.png") ||
    (List.range k).any fun j =>
      path == g_build_filename uri (g_strdup_printf_screenshot ((j : Int) + 1))

/-! ## `get_image_url` and `ipfs_upload_job` (screenshooter-ipfs.c) -/

/-- The error domains the upload job meets. -/
inductive GQuark
  /-- The domain `G_IO_ERROR` of GIO. -/
  | G_IO_ERROR
  /-- The domain `SOUP_HTTP_ERROR` of libsoup. -/
  | SOUP_HTTP_ERROR
  /-- The domain `JSON_PARSER_ERROR` of json-glib. -/
  | JSON_PARSER_ERROR
deriving DecidableEq

/-- A `GError`: domain, code and message. -/
structure GError where
  /-- The error domain. -/
  domain : GQuark
  /-- The error code, a `gint`. -/
  code : Int
  /-- The message for the user. -/
  message : String
deriving DecidableEq

/-- The code `G_IO_ERROR_CANCELLED` of GIO. -/
def G_IO_ERROR_CANCELLED : Int := 19

/-- A caller's `GError **`: `none` is a `NULL` location, `some none` a location
holding `NULL`, `some (some e)` a location that already holds an error. -/
abbrev ErrorLocation := Option (Option GError)

/-- GLib's `g_propagate_error` (and `g_set_error_literal`): the error is stored
in an empty location, dropped when the caller passed no location, and an
occupied location is left as it is. -/
def g_propagate_error (dest : ErrorLocation) (src : GError) : ErrorLocation :=
  match dest with
  | none => none
  | some none => some (some src)
  | some (some e) => some (some e)

/-- A scalar held by a JSON value node. -/
inductive JsonValue
  /-- A string. -/
  | string (s : String)
  /-- A number, kept as written. -/
  | number (text : String)
  /-- A boolean. -/
  | boolean (b : Bool)
deriving DecidableEq

/-- A `JsonNode` of json-glib; an object lists its members once per name. -/
inductive JsonNode
  /-- A node of type `JSON_NODE_OBJECT`. -/
  | object (members : List (String × JsonNode))
  /-- A node of type `JSON_NODE_ARRAY`. -/
  | array (elements : List JsonNode)
  /-- A node of type `JSON_NODE_VALUE`. -/
  | value (v : JsonValue)
  /-- A node of type `JSON_NODE_NULL`. -/
  | null

/-- The enumeration `JsonNodeType`. -/
inductive JsonNodeType
  | JSON_NODE_OBJECT
  | JSON_NODE_ARRAY
  | JSON_NODE_VALUE
  | JSON_NODE_NULL
deriving DecidableEq

/-- The macro `JSON_NODE_TYPE`, that is `json_node_get_node_type`: it answers
`JSON_NODE_NULL` for a node that is not valid, a `NULL` pointer included. -/
def JSON_NODE_TYPE : Option JsonNode → JsonNodeType
  | some (.object _) => .JSON_NODE_OBJECT
  | some (.array _) => .JSON_NODE_ARRAY
  | some (.value _) => .JSON_NODE_VALUE
  | some .null => .JSON_NODE_NULL
  | none => .JSON_NODE_NULL

/-- The function `json_node_get_object`: the object of an object node. -/
def json_node_get_object : Option JsonNode → Option (List (String × JsonNode))
  | some (.object members) => some members
  | _ => none

/-- The function `json_object_get_member`: the node stored under the name, or
`NULL`. -/
def json_object_get_member (object : Option (List (String × JsonNode)))
    (member_name : String) : Option JsonNode :=
  match object with
  | some members => (members.find? fun m => m.1 == member_name).map Prod.snd
  | none => none

/-- The function `json_node_dup_string`: a copy of the string of a string value
node; `NULL` for any other node and for a `NULL` node. -/
def json_node_dup_string : Option JsonNode → Option String
  | some (.value (.string s)) => some s
  | _ => none

/-- The outcome of `json_parser_load_from_data` followed by
`json_parser_get_root`: a parse error, or the root node (`NULL` for an empty
document). -/
abbrev JsonParser := String → Except GError (Option JsonNode)

/-- The function `get_image_url`: `NULL` when the parser reports an error,
otherwise the string of the member `Hash` of a root object, and `NULL` when the
root is not an object. -/
def get_image_url (json_parser_load_from_data : JsonParser) (json : String) :
    Option String :=
  match json_parser_load_from_data json with
  | .error _ => none
  | .ok root =>
    if JSON_NODE_TYPE root = .JSON_NODE_OBJECT then
      let hash := json_object_get_member (json_node_get_object root) "Hash"
      json_node_dup_string hash
    else none

/-- A `GValue` of the parameter array. -/
inductive GValue
  /-- A value of type `G_TYPE_STRING`; the string may be `NULL`. -/
  | string (s : Option String)
  /-- A value of another type. -/
  | other
deriving DecidableEq

/-- The macro `G_VALUE_HOLDS_STRING`. -/
def G_VALUE_HOLDS_STRING : GValue → Bool
  | .string _ => true
  | .other => false

/-- The function `g_value_get_string`. -/
def g_value_get_string : GValue → Option String
  | .string s => s
  | .other => none

/-- What the job function can see of its `ScreenshooterJob`. -/
structure ScreenshooterJob where
  /-- The check `SCREENSHOOTER_IS_JOB (job)`. -/
  is_job : Bool
  /-- The cancellation flag of the underlying `ExoJob`. -/
  cancelled : Bool
deriving DecidableEq

/-- One part of a `SoupMultipart` body. -/
inductive Part
  /-- A part added by `soup_multipart_append_form_string`. -/
  | form_string (control_name data : String)
  /-- A part added by `soup_multipart_append_form_file`. -/
  | form_file (control_name : String) (filename content_type : Option String)
      (body : List UInt8)
deriving DecidableEq

/-- A `SoupMessage` made by `soup_form_request_new_from_multipart`: a `POST` of
the multipart body to the URI. -/
structure SoupMessage where
  /-- The HTTP method. -/
  method : String
  /-- The request URI. -/
  uri : String
  /-- The MIME type given to `soup_multipart_new`. -/
  mime_type : String
  /-- The parts, in the order they were appended. -/
  parts : List Part
deriving DecidableEq

/-- A `SoupSession` as the job configures it. -/
structure SoupSession where
  /-- The property `proxy-uri`; `none` when it was never set or set to `NULL`. -/
  proxy_uri : Option String
deriving DecidableEq

/-- What `soup_session_send_message` leaves behind: the returned status and the
reason phrase and body stored in the message. -/
structure Response where
  /-- The status, a `guint`. -/
  status : Nat
  /-- The field `msg->reason_phrase`. -/
  reason_phrase : String
  /-- The field `msg->response_body->data`, read as a C string. -/
  body : String
deriving DecidableEq

/-- The surroundings of one run of the job: the environment, the file system,
the server and the libraries whose answers the job uses. -/
structure World where
  /-- The answer of `g_getenv ("http_proxy")`. -/
  http_proxy : Option String
  /-- The function `soup_uri_new`: `NULL` when the text is not a valid URI. -/
  soup_uri_new : String → Option String
  /-- The function `g_mapped_file_new (path, FALSE, NULL)`: the contents of the
  file, or `NULL` when it cannot be mapped. -/
  g_mapped_file_new : Option String → Option (List UInt8)
  /-- The function `soup_session_send_message`. -/
  soup_session_send_message : SoupSession → SoupMessage → Response
  /-- The parser of json-glib. -/
  json_parser_load_from_data : JsonParser

/-- The effects of the job function that reach outside of it, as they happen. -/
inductive Action
  /-- The call `g_object_set_data (job, key, data)`. -/
  | set_data (key data : String)
  /-- The call `soup_session_new ()`. -/
  | session_new
  /-- The call `g_getenv (varname)`. -/
  | getenv (varname : String)
  /-- The call `g_object_set (session, "proxy-uri", uri, NULL)`. -/
  | set_proxy (uri : Option String)
  /-- The call `g_mapped_file_new (filename, FALSE, NULL)`. -/
  | map_file (filename : Option String)
  /-- The call `exo_job_info_message (job, message)`. -/
  | info_message (message : String)
  /-- The call `soup_session_send_message (session, msg)`. -/
  | send_message (session : SoupSession) (msg : SoupMessage)
  /-- The call `screenshooter_job_image_uploaded (job, file_name)`. -/
  | image_uploaded (file_name : Option String)
deriving DecidableEq

/-- What a call of the job function leaves behind. -/
structure JobResult where
  /-- The returned `gboolean`. -/
  ret : Bool
  /-- The caller's error location after the call. -/
  error : ErrorLocation
  /-- The effects, oldest first. -/
  actions : List Action
deriving DecidableEq

/-- The function `exo_job_set_error_if_cancelled` of exo: when the job is
cancelled it sets the error `G_IO_ERROR_CANCELLED` and answers `TRUE`. -/
def exo_job_set_error_if_cancelled (job : ScreenshooterJob) (error : ErrorLocation) :
    Bool × ErrorLocation :=
  if job.cancelled then
    (true, g_propagate_error error
      ⟨.G_IO_ERROR, G_IO_ERROR_CANCELLED, gettext "Operation was cancelled"⟩)
  else (false, error)

/-- The macro `SOUP_STATUS_IS_SUCCESSFUL`. -/
def SOUP_STATUS_IS_SUCCESSFUL (status : Nat) : Bool :=
  decide (200 ≤ status) && decide (status < 300)

/-- The constant `upload_url` of `ipfs_upload_job`. -/
def upload_url : String := "https://api.globalupload.io/transport/add"

/-- The constant `SOUP_FORM_MIME_TYPE_MULTIPART`. -/
def SOUP_FORM_MIME_TYPE_MULTIPART : String := "multipart/form-data"

/-- The function `ipfs_upload_job`. The `TRACE` of the failure branch prints
only in debugging builds and is left out, as are the releases of memory. The
`guint status` is handed to the `gint code` of `g_error_new`, which holds it
reduced to the range of `gint`. -/
def ipfs_upload_job (w : World) (job : ScreenshooterJob)
    (param_values : Option (List GValue)) (error : ErrorLocation) : JobResult :=
  if !job.is_job then ⟨false, error, []⟩
  else
    match param_values with
    | none => ⟨false, error, []⟩
    | some [v0, v1] =>
      if !G_VALUE_HOLDS_STRING v0 then ⟨false, error, []⟩
      else if !G_VALUE_HOLDS_STRING v1 then ⟨false, error, []⟩
      else if !(error == none || error == some none) then ⟨false, error, []⟩
      else
        let acts0 := [Action.set_data "jobtype" "ipfs"]
        let cancel := exo_job_set_error_if_cancelled job error
        if cancel.1 then ⟨false, cancel.2, acts0⟩
        else
          let image_path := g_value_get_string v0
          let acts1 := acts0 ++ [Action.session_new, Action.getenv "http_proxy"]
          let proxy_uri := w.http_proxy
          let session : SoupSession :=
            match proxy_uri with
            | some p => ⟨w.soup_uri_new p⟩
            | none => ⟨none⟩
          let acts2 :=
            match proxy_uri with
            | some p => acts1 ++ [Action.set_proxy (w.soup_uri_new p)]
            | none => acts1
          let acts3 := acts2 ++ [Action.map_file image_path]
          match w.g_mapped_file_new image_path with
          | none => ⟨false, error, acts3⟩
          | some buf =>
            let mp : List Part :=
              [Part.form_string "name" "keyphrase", Part.form_string "name" "user",
                Part.form_file "file" image_path none buf]
            let msg : SoupMessage := ⟨"POST", upload_url, SOUP_FORM_MIME_TYPE_MULTIPART, mp⟩
            let acts4 := acts3 ++
              [Action.info_message (gettext "Upload the screenshot..."),
                Action.send_message session msg]
            let response := w.soup_session_send_message session msg
            let status := response.status
            if !SOUP_STATUS_IS_SUCCESSFUL status then
              let tmp_error : GError :=
                ⟨.SOUP_HTTP_ERROR, wrapInt (status : Int),
                  gettext "An error occurred while transferring the data to ipfs."⟩
              ⟨false, g_propagate_error error tmp_error, acts4⟩
            else
              let online_file_name :=
                get_image_url w.json_parser_load_from_data response.body
              ⟨true, error, acts4 ++ [Action.image_uploaded online_file_name]⟩
    | some _ => ⟨false, error, []⟩

/-- The payloads of the `image-uploaded` signals among the effects. -/
def imagesUploaded (r : JobResult) : List (Option String) :=
  r.actions.filterMap fun a =>
    match a with
    | .image_uploaded file_name => some file_name
    | _ => none

/-- The messages handed to `soup_session_send_message` among the effects. -/
def messagesSent (r : JobResult) : List SoupMessage :=
  r.actions.filterMap fun a =>
    match a with
    | .send_message _ msg => some msg
    | _ => none

/-- A stand-in for the parser of json-glib on four documents: an object with the
member `Hash`, the empty object, the empty array and a text that is no JSON. -/
def exampleParser : JsonParser := fun json =>
  if json = "\x7b\"Hash\":\"abc123\"\x7d" then
    .ok (some (.object [("Hash", .value (.string "abc123"))]))
  else if json = "\x7b\x7d" then .ok (some (.object []))
  else if json = "[]" then .ok (some (.array []))
  else .error ⟨.JSON_PARSER_ERROR, 0, "syntax error"⟩

/-- A world without proxy in which `/tmp/Screenshot.png` is the only file that
can be mapped and the server answers every request with the given response. -/
def exampleWorld (response : Response) : World where
  http_proxy := none
  soup_uri_new := fun s => if s = "" then none else some s
  g_mapped_file_new := fun path =>
    if path = some "/tmp/Screenshot.png" then some [137, 80, 78, 71] else none
  soup_session_send_message := fun _ _ => response
  json_parser_load_from_data := exampleParser

/-- Well-formed parameters: the two strings `image_path` and `title`. -/
def exampleParams : Option (List GValue) :=
  some [.string (some "/tmp/Screenshot.png"), .string (some "Screenshot")]

/-- The file names of the file parts of a message, in order. -/
def fileNames (msg : SoupMessage) : List (Option String) :=
  msg.parts.filterMap fun p =>
    match p with
    | .form_file _ filename _ _ => some filename
    | _ => none

/-- The texts of the `info-message` signals among the effects. -/
def infoMessages (r : JobResult) : List String :=
  r.actions.filterMap fun a =>
    match a with
    | .info_message message => some message
    | _ => none

/-- The `info-message` signals and the sends among the effects, in the order in
which they happened. -/
def infoAndSend (r : JobResult) : List Action :=
  r.actions.filter fun a =>
    match a with
    | .info_message _ => true
    | .send_message _ _ => true
    | _ => false

/-- The values given to the property `proxy-uri` among the effects. -/
def proxyOverrides (r : JobResult) : List (Option String) :=
  r.actions.filterMap fun a =>
    match a with
    | .set_proxy uri => some uri
    | _ => none

/-- The sessions that sent a message, among the effects. -/
def sessionsUsed (r : JobResult) : List SoupSession :=
  r.actions.filterMap fun a =>
    match a with
    | .send_message session _ => some session
    | _ => none

/-- A stand-in for `soup_uri_new` on the texts of the examples: a text without a
colon has no scheme, so it is no absolute URI and is rejected; the absolute
URIs of the examples are accepted as they are. -/
def exampleUriNew (uri_string : String) : Option String :=
  if ':' ∈ uri_string.data then some uri_string else none

/-- The world of `exampleWorld` with the variable `http_proxy` as given and a
server that answers 200 with the empty object. -/
def proxyWorld (http_proxy : Option String) : World where
  http_proxy := http_proxy
  soup_uri_new := exampleUriNew
  g_mapped_file_new := fun path =>
    if path = some "/tmp/Screenshot.png" then some [137, 80, 78, 71] else none
  soup_session_send_message := fun _ _ => ⟨200, "OK", "\x7b\x7d"⟩
  json_parser_load_from_data := exampleParser

/-! ## `screenshooter_save_screenshot` (screenshooter-dialogs.c) -/

/-- The response id `GTK_RESPONSE_ACCEPT` of GTK. -/
def GTK_RESPONSE_ACCEPT : Int := -3

/-- The response id `GTK_RESPONSE_CANCEL` of GTK. -/
def GTK_RESPONSE_CANCEL : Int := -6

/-- The surroundings of one call of `screenshooter_save_screenshot`. -/
structure SaveWorld where
  /-- The answer of `g_file_test (path, G_FILE_TEST_EXISTS)`. -/
  g_file_test : String → Bool
  /-- The response with which `gtk_dialog_run` returns for the file chooser. -/
  gtk_dialog_run : Int
  /-- The file name the user settled on, read with
  `gtk_file_chooser_get_filename` after the chooser was accepted. -/
  gtk_file_chooser_get_filename : String
  /-- The function `gdk_pixbuf_save (screenshot, filename, "png", &error, NULL)`:
  `none` when the file was written, otherwise the message of the error. -/
  gdk_pixbuf_save : String → Option String

/-- The effects of `screenshooter_save_screenshot` that the user or the disk
sees. -/
inductive SaveAction
  /-- The file chooser was run, with this folder and this name preset. -/
  | dialog_run (current_folder current_name : Option String)
  /-- The call `gdk_pixbuf_save (screenshot, filename, "png", &error, NULL)`. -/
  | pixbuf_save (filename : String)
  /-- The call `xfce_err ("%s", message)`: a blocking error dialog. -/
  | xfce_err (message : String)
deriving DecidableEq

/-- What a call of `screenshooter_save_screenshot` leaves behind. -/
structure Saved where
  /-- The returned `savename`, `none` for `NULL`. -/
  savename : Option String
  /-- The paths probed while the candidate name was generated. -/
  probes : List String
  /-- The effects, oldest first. -/
  actions : List SaveAction
deriving DecidableEq

/-- The call `g_build_filename (default_dir, filename, NULL)` with arguments that
may be `NULL`: the argument list ends at the first `NULL`. -/
def g_build_filename_null (default_dir filename : Option String) : String :=
  match default_dir, filename with
  | some d, some f => g_build_filename d f
  | some d, none => String.mk (g_build_path [d.data])
  | none, _ => String.mk (g_build_path [])

/-- The statement `if (!gdk_pixbuf_save (...)) { xfce_err ("%s", error->message); }`
that both branches of `screenshooter_save_screenshot` use. -/
def save_or_report (w : SaveWorld) (savename : String) : List SaveAction :=
  match w.gdk_pixbuf_save savename with
  | none => [.pixbuf_save savename]
  | some message => [.pixbuf_save savename, .xfce_err message]

/-- The function `screenshooter_save_screenshot`; `show_save_dialog` is a
`gboolean`, tested against zero. The preview thumbnail of the chooser is
presentation only and left out. -/
def screenshooter_save_screenshot (w : SaveWorld) (fuel : Nat) (show_save_dialog : Int)
    (default_dir : Option String) : Option Saved :=
  match generate_filename_for_uri w.g_file_test fuel default_dir with
  | none => none
  | some g =>
    let filename := g.name
    if show_save_dialog ≠ 0 then
      let acts := [SaveAction.dialog_run default_dir filename]
      if w.gtk_dialog_run = GTK_RESPONSE_ACCEPT then
        let savename := w.gtk_file_chooser_get_filename
        some ⟨some savename, g.probes, acts ++ save_or_report w savename⟩
      else some ⟨none, g.probes, acts⟩
    else
      let savename := g_build_filename_null default_dir filename
      some ⟨some savename, g.probes, save_or_report w savename⟩

/-- The paths handed to `gdk_pixbuf_save` among the effects. -/
def filesWritten (s : Saved) : List String :=
  s.actions.filterMap fun a =>
    match a with
    | .pixbuf_save filename => some filename
    | _ => none

/-- The messages of the error dialogs among the effects. -/
def errorsShown (s : Saved) : List String :=
  s.actions.filterMap fun a =>
    match a with
    | .xfce_err message => some message
    | _ => none

/-- The number of times the file chooser was run. -/
def dialogsRun (s : Saved) : Nat :=
  (s.actions.filter fun a =>
    match a with
    | .dialog_run _ _ => true
    | _ => false).length

/-- A world with an empty disk on which every write succeeds; the user would
cancel a chooser. -/
def emptyDisk : SaveWorld where
  g_file_test := fun _ => false
  gtk_dialog_run := GTK_RESPONSE_CANCEL
  gtk_file_chooser_get_filename := ""
  gdk_pixbuf_save := fun _ => none

/-- A world with an empty disk on which no directory exists, so that every
write fails; the user would accept the chooser with `/nowhere/shot.png`. -/
def noDirectory : SaveWorld where
  g_file_test := fun _ => false
  gtk_dialog_run := GTK_RESPONSE_ACCEPT
  gtk_file_chooser_get_filename := "/nowhere/shot.png"
  gdk_pixbuf_save := fun path =>
    some ("Failed to open \"" ++ path ++ "\" for writing: No such file or directory")

/-- A world with an empty disk on which every write succeeds; the user accepts
the chooser with `/home/user/shot.png`. -/
def acceptingUser : SaveWorld where
  g_file_test := fun _ => false
  gtk_dialog_run := GTK_RESPONSE_ACCEPT
  gtk_file_chooser_get_filename := "/home/user/shot.png"
  gdk_pixbuf_save := fun _ => none

/-- A world whose disk holds a file under every path, so that no candidate name
is free; writes would succeed. -/
def fullDisk : SaveWorld where
  g_file_test := fun _ => true
  gtk_dialog_run := GTK_RESPONSE_CANCEL
  gtk_file_chooser_get_filename := ""
  gdk_pixbuf_save := fun _ => none

/-! ## `set_default_item` (screenshooter-dialogs.c) -/

/-- Modelled from the spec: the declaration of `ScreenshotData` is in a header
that is not part of the sources; the fields are the ones the sources use, which
are the options of the data model of the specification. -/
structure ScreenshotData where
  /-- The region to capture. -/
  region : Int
  /-- Whether the save dialog is shown. -/
  show_save_dialog : Int
  /-- The delay in seconds. -/
  delay : Int
  /-- The action to take with the screenshot. -/
  action : Int
  /-- The default save directory. -/
  screenshot_dir : Option String
  /-- The command of the application to open the screenshot with. -/
  app : String
deriving DecidableEq

/-- What `set_default_item` sees of the combo box: the commands in column 2 of
the rows of its model, and the active row. -/
structure ComboBox where
  /-- Column 2 of each row, first row first. -/
  commands : List String
  /-- The index of the active row, if any. -/
  active : Option Nat
deriving DecidableEq

/-- The `do … while (gtk_tree_model_iter_next (model, &iter))` loop of
`set_default_item` over the rows from index `idx` on: every row whose command
equals `sd->app` is made the active one and sets `found`. -/
def selectLoop (app : String) : List String → Nat → Option Nat → Bool → Option Nat × Bool
  | [], _, active, found => (active, found)
  | command :: rest, idx, active, found =>
    if command = app then selectLoop app rest (idx + 1) (some idx) true
    else selectLoop app rest (idx + 1) active found

/-- The function `set_default_item`. -/
def set_default_item (combobox : ComboBox) (sd : ScreenshotData) :
    ComboBox × ScreenshotData :=
  match combobox.commands with
  | first :: _ =>
    let r := selectLoop sd.app combobox.commands 0 combobox.active false
    if !r.2 then ({ combobox with active := some 0 }, { sd with app := first })
    else ({ combobox with active := r.1 }, sd)
  | [] => (combobox, { sd with app := "none" })

/-! ## The save dialog checkbox (screenshooter-dialogs.c) -/

/-- The state `screenshooter_dialog_new` gives to the check button "Display the
save dialog": the call
`gtk_toggle_button_set_active (save_checkbox, (sd->show_save_dialog == 0))`,
made before the handler of `toggled` is connected. -/
def save_checkbox_active (sd : ScreenshotData) : Bool :=
  decide (sd.show_save_dialog = 0)

/-- The function `cb_show_save_dialog_toggled`; `active` is the answer of
`gtk_toggle_button_get_active (tb)`. -/
def cb_show_save_dialog_toggled (active : Bool) (sd : ScreenshotData) : ScreenshotData :=
  if active then { sd with show_save_dialog := 0 }
  else { sd with show_save_dialog := 1 }

/-! ## Reading decimal numbers back -/

/-- The value of a decimal digit character. -/
def digitValue (c : Char) : Nat := c.toNat - 48

/-- Reads a most-significant-first list of decimal digits. -/
def decodeDigits (l : List Char) : Nat :=
  l.foldl (fun acc c => acc * 10 + digitValue c) 0

/-- Reads back what `formatInt` prints. -/
def decodeInt (s : String) : Int :=
  if s.data.head? = some '-' then -((decodeDigits s.data.tail : Nat) : Int)
  else ((decodeDigits s.data : Nat) : Int)

/-! ## Facts about the loop -/

theorem wrapInt_of_range (x : Int) (h1 : -2147483648 ≤ x) (h2 : x ≤ 2147483647) :
    wrapInt x = x := by
  unfold wrapInt; omega

theorem wrapInt_range (x : Int) : -2147483648 ≤ wrapInt x ∧ wrapInt x ≤ 2147483647 := by
  unfold wrapInt; omega

/-- A run of `m` occupied candidates starting at `i`, the counter staying within
`G_MAXINT`, costs `m` rounds and `m` probes and leaves the counter at `i + m`. -/
theorem searchLoop_skip (fs : String → Bool) (uri : String) (m : Nat) :
    ∀ (fuel : Nat) (i : Int) (probes : List String),
      -2147483648 ≤ i → i + (m : Int) ≤ 2147483647 →
      (∀ j : Nat, j < m →
        fs (g_build_filename uri (g_strdup_printf_screenshot (i + (j : Int)))) = true) →
      searchLoop fs uri (m + fuel) i probes =
        searchLoop fs uri fuel (i + (m : Int))
          (probes ++ (List.range m).map fun (j : Nat) =>
            g_build_filename uri (g_strdup_printf_screenshot (i + (j : Int)))) := by
  induction m with
  | zero =>
    intro fuel i probes _ _ _
    simp
  | succ m ih =>
    intro fuel i probes h1 h2 hocc
    have h0 := hocc 0 (Nat.succ_pos m)
    simp only [Nat.cast_zero, add_zero] at h0
    have hstep : searchLoop fs uri (m + fuel + 1) i probes =
        searchLoop fs uri (m + fuel) (wrapInt (i + 1))
          (probes ++ [g_build_filename uri (g_strdup_printf_screenshot i)]) := by
      simp [searchLoop, h0]
    have hw : wrapInt (i + 1) = i + 1 := by
      push_cast at h2
      rw [wrapInt_of_range] <;> omega
    have e1 : m + 1 + fuel = m + fuel + 1 := by omega
    have e2 : i + 1 + (m : Int) = i + ((m + 1 : Nat) : Int) := by push_cast; ring
    rw [e1, hstep, hw, ih fuel (i + 1) _ (by omega) (by push_cast at h2; omega)]
    · rw [e2, List.range_succ_eq_map]
      simp only [List.map_cons, List.map_map, List.append_assoc, List.singleton_append,
        Nat.cast_zero, add_zero]
      congr 3
      apply List.map_congr_left
      intro j _
      simp only [Function.comp, Nat.succ_eq_add_one]
      rw [show i + 1 + (j : Int) = i + ((j + 1 : Nat) : Int) by push_cast; ring]
    · intro j hj
      have := hocc (j + 1) (by omega)
      have e3 : i + 1 + (j : Int) = i + ((j + 1 : Nat) : Int) := by push_cast; ring
      rw [e3]; exact this

/-- A free candidate ends the loop in the round that probes it. -/
theorem searchLoop_found (fs : String → Bool) (uri : String) (fuel : Nat) (i : Int)
    (probes : List String)
    (hfree : fs (g_build_filename uri (g_strdup_printf_screenshot i)) = false) :
    searchLoop fs uri (fuel + 1) i probes =
      some ⟨some (g_strdup_printf_screenshot i),
        probes ++ [g_build_filename uri (g_strdup_printf_screenshot i)]⟩ := by
  simp [searchLoop, hfree]

/-! ## Decimal formatting is injective -/

theorem digitValue_digitChar (k : Nat) (h : k < 10) : digitValue (Nat.digitChar k) = k := by
  interval_cases k <;> rfl

theorem digitChar_ne_minus (k : Nat) (h : k < 10) : Nat.digitChar k ≠ '-' := by
  interval_cases k <;> decide

theorem foldl_toDigitsCore (fuel : Nat) :
    ∀ (n : Nat) (ds : List Char), n < fuel →
      (Nat.toDigitsCore 10 fuel n ds).foldl (fun acc c => acc * 10 + digitValue c) 0 =
        ds.foldl (fun acc c => acc * 10 + digitValue c) n := by
  induction fuel with
  | zero => intro n ds h; omega
  | succ fuel ih =>
    intro n ds h
    have hd : digitValue (Nat.digitChar (n % 10)) = n % 10 :=
      digitValue_digitChar _ (Nat.mod_lt _ (by decide))
    simp only [Nat.toDigitsCore]
    split
    · rename_i h0
      have hn : n % 10 = n := by omega
      have hd2 : digitValue (Nat.digitChar n) = n := by rw [hn] at hd; exact hd
      simp only [List.foldl, Nat.zero_mul, Nat.zero_add, hn, hd2]
    · rename_i h0
      rw [ih (n / 10) _ (by omega)]
      simp only [List.foldl, hd]
      congr 1
      omega

theorem toDigitsCore_ne_minus (fuel : Nat) :
    ∀ (n : Nat) (ds : List Char), (∀ c ∈ ds, c ≠ '-') →
      ∀ c ∈ Nat.toDigitsCore 10 fuel n ds, c ≠ '-' := by
  induction fuel with
  | zero => intro n ds h; simpa [Nat.toDigitsCore] using h
  | succ fuel ih =>
    intro n ds h
    have hd : Nat.digitChar (n % 10) ≠ '-' :=
      digitChar_ne_minus _ (Nat.mod_lt _ (by decide))
    have hds : ∀ c ∈ Nat.digitChar (n % 10) :: ds, c ≠ '-' := by
      intro c hc
      rcases List.mem_cons.mp hc with rfl | hc
      · exact hd
      · exact h c hc
    simp only [Nat.toDigitsCore]
    split
    · exact hds
    · exact ih _ _ hds

theorem decodeDigits_repr (n : Nat) : decodeDigits (Nat.repr n).data = n := by
  simp [decodeDigits, Nat.repr, Nat.toDigits, List.asString, foldl_toDigitsCore]

theorem repr_head_ne_minus (n : Nat) : (Nat.repr n).data.head? ≠ some '-' := by
  intro h
  have hmem : '-' ∈ (Nat.repr n).data := List.mem_of_mem_head? h
  exact toDigitsCore_ne_minus (n + 1) n [] (by simp) '-' hmem rfl

theorem decodeInt_formatInt (i : Int) : decodeInt (formatInt i) = i := by
  cases i with
  | ofNat m =>
    have e : formatInt (Int.ofNat m) = Nat.repr m := rfl
    rw [e, decodeInt, if_neg (repr_head_ne_minus m), decodeDigits_repr]
    rfl
  | negSucc m =>
    have e : (formatInt (Int.negSucc m)).data = '-' :: (Nat.repr (m + 1)).data := rfl
    rw [decodeInt, e]
    simp only [List.head?_cons, if_true, List.tail_cons, decodeDigits_repr]
    rw [Int.negSucc_eq]
    push_cast; ring

theorem formatInt_injective : Function.Injective formatInt :=
  Function.LeftInverse.injective decodeInt_formatInt

theorem g_strdup_printf_screenshot_injective :
    Function.Injective g_strdup_printf_screenshot := by
  intro i j h
  apply formatInt_injective
  have h2 := congrArg String.data h
  simp only [g_strdup_printf_screenshot, String.data_append, List.append_assoc] at h2
  have h3 := List.append_cancel_left h2
  have h4 := List.append_cancel_right h3
  exact String.ext h4

/-! ## Paths of the candidates -/

theorem g_build_path_plain (uri : List Char) (c c2 : Char) (mid : List Char)
    (h1 : isSep c = false) (h2 : isSep c2 = false) :
    g_build_path [uri, c :: (mid ++ [c2])] = dirPrefix uri ++ c :: (mid ++ [c2]) := by
  have e2 : (c :: (mid ++ [c2])).dropWhile isSep = c :: (mid ++ [c2]) := by
    simp [List.dropWhile, h1]
  have e3 : (c :: (mid ++ [c2])).reverse = c2 :: (mid.reverse ++ [c]) := by simp
  have e4 : (c2 :: (mid.reverse ++ [c])).dropWhile isSep = c2 :: (mid.reverse ++ [c]) := by
    simp [List.dropWhile, h2]
  have e5 : (c2 :: (mid.reverse ++ [c])).takeWhile isSep = [] := by
    simp [List.takeWhile, h2]
  have e6 : (c :: (mid ++ [c2])).takeWhile isSep = [] := by
    simp [List.takeWhile, h1]
  by_cases hu : uri = []
  · subst hu
    simp only [g_build_path, List.foldl, dirPrefix]
    simp only [buildStep, e2, e3, e4, e5, e6]
    simp
  · have hl : (buildStep ⟨[], true, false, none, []⟩ uri).have_leading = true := by
      simp only [buildStep, hu, if_false]
      split <;> simp
    simp only [g_build_path, List.foldl, dirPrefix]
    generalize buildStep ⟨[], true, false, none, []⟩ uri = st at hl ⊢
    simp only [buildStep, e2, e3, e4, e5, hl]
    simp

theorem g_strdup_printf_screenshot_data (i : Int) :
    (g_strdup_printf_screenshot i).data =
      'S' :: (['c', 'r', 'e', 'e', 'n', 's', 'h', 'o', 't', '-'] ++ (formatInt i).data ++
        ['.', 'p', 'n'] ++ ['g']) := by
  simp [g_strdup_printf_screenshot, String.data_append]

/-- The path of a numbered candidate is the directory prefix followed by the
candidate. -/
theorem g_build_filename_numbered (uri : String) (i : Int) :
    (g_build_filename uri (g_strdup_printf_screenshot i)).data =
      dirPrefix uri.data ++ (g_strdup_printf_screenshot i).data := by
  rw [g_build_filename, g_strdup_printf_screenshot_data]
  exact g_build_path_plain _ _ _ _ (by decide) (by decide)

/-- The path of `Screenshot.png` is the directory prefix followed by that name. -/
theorem g_build_filename_base (uri : String) :
    (g_build_filename uri "Screenshot.png").data =
      dirPrefix uri.data ++ ("Screenshot.png" : String).data := by
  have e : ("Screenshot.png" : String).data =
      'S' :: (['c', 'r', 'e', 'e', 'n', 's', 'h', 'o', 't', '.', 'p', 'n'] ++ ['g']) := rfl
  rw [g_build_filename, e]
  exact g_build_path_plain _ _ _ _ (by decide) (by decide)

/-! ## What the loop can return -/

/-- Whatever the loop returns is a candidate `Screenshot-j.png` for a `gint`
value `j`, free at the time of its probe, and the probes made before the loop
are kept in front of the ones it adds. -/
theorem searchLoop_returns (fs : String → Bool) (uri : String) :
    ∀ (fuel : Nat) (i : Int) (probes : List String) (g : Generated),
      -2147483648 ≤ i → i ≤ 2147483647 →
      searchLoop fs uri fuel i probes = some g →
      ∃ j : Int, -2147483648 ≤ j ∧ j ≤ 2147483647 ∧
        g.name = some (g_strdup_printf_screenshot j) ∧
        fs (g_build_filename uri (g_strdup_printf_screenshot j)) = false ∧
        ∃ rest, g.probes = probes ++ rest := by
  intro fuel
  induction fuel with
  | zero => intro i probes g _ _ h; simp [searchLoop] at h
  | succ fuel ih =>
    intro i probes g h1 h2 h
    cases hfs : fs (g_build_filename uri (g_strdup_printf_screenshot i)) with
    | false =>
      rw [searchLoop_found fs uri fuel i probes hfs] at h
      cases h
      exact ⟨i, h1, h2, rfl, hfs, _, rfl⟩
    | true =>
      have hstep : searchLoop fs uri (fuel + 1) i probes =
          searchLoop fs uri fuel (wrapInt (i + 1))
            (probes ++ [g_build_filename uri (g_strdup_printf_screenshot i)]) := by
        simp [searchLoop, hfs]
      rw [hstep] at h
      obtain ⟨j, hj1, hj2, hn, hf, rest, hr⟩ :=
        ih _ _ g (wrapInt_range _).1 (wrapInt_range _).2 h
      exact ⟨j, hj1, hj2, hn, hf, _, by rw [hr, List.append_assoc]⟩

/-- While every candidate from `1` to the fuel is occupied and the counter has
not overflowed, the loop has not returned. -/
theorem searchLoop_short (fs : String → Bool) (uri : String) (fuel : Nat)
    (probes : List String) (hmax : (fuel : Int) ≤ 2147483647)
    (hocc : ∀ k : Nat, 1 ≤ k → k ≤ fuel →
      fs (g_build_filename uri (g_strdup_printf_screenshot k)) = true) :
    searchLoop fs uri fuel 1 probes = none := by
  by_cases h0 : fuel = 0
  · subst h0; rfl
  · obtain ⟨m, rfl⟩ : ∃ m, fuel = m + 1 := ⟨fuel - 1, by omega⟩
    have hskip := searchLoop_skip fs uri m 1 1 probes (by omega)
      (by push_cast at hmax; omega)
      (by
        intro j hj
        have := hocc (j + 1) (by omega) (by omega)
        have e : (1 : Int) + (j : Int) = ((j + 1 : Nat) : Int) := by push_cast; ring
        rw [e]; exact this)
    have hlast := hocc (m + 1) (by omega) (by omega)
    have e1 : (1 : Int) + (m : Int) = ((m + 1 : Nat) : Int) := by push_cast; ring
    push_cast at hlast
    rw [hskip, e1]
    simp [searchLoop, hlast]

/-- When every candidate the counter can hold is occupied, the loop returns for
no amount of fuel. -/
theorem searchLoop_never (fs : String → Bool) (uri : String) (probes : List String)
    (hocc : ∀ i : Int, -2147483648 ≤ i → i ≤ 2147483647 →
      fs (g_build_filename uri (g_strdup_printf_screenshot i)) = true)
    (fuel : Nat) : searchLoop fs uri fuel 1 probes = none := by
  cases h : searchLoop fs uri fuel 1 probes with
  | none => rfl
  | some g =>
    obtain ⟨j, hj1, hj2, _, hf, _⟩ :=
      searchLoop_returns fs uri fuel 1 probes g (by omega) (by omega) h
    rw [hocc j hj1 hj2] at hf
    cases hf

/-! ## The state `numberedDir` -/

theorem numberedDir_base (uri : String) (k : Nat) :
    numberedDir uri k (g_build_filename uri "Screenshot.png") = true := by
  simp [numberedDir, gettext]

theorem numberedDir_numbered (uri : String) (k j : Nat) (h1 : 1 ≤ j) (h2 : j ≤ k) :
    numberedDir uri k (g_build_filename uri (g_strdup_printf_screenshot j)) = true := by
  simp only [numberedDir, Bool.or_eq_true, List.any_eq_true, List.mem_range, beq_iff_eq]
  right
  refine ⟨j - 1, by omega, ?_⟩
  have e : ((j - 1 : Nat) : Int) + 1 = (j : Int) := by omega
  rw [e]

/-- In the state `numberedDir uri k` a numbered candidate exists only when its
number is between `1` and `k`. -/
theorem numberedDir_bounds (uri : String) (k : Nat) (i : Int)
    (h : numberedDir uri k (g_build_filename uri (g_strdup_printf_screenshot i)) = true) :
    1 ≤ i ∧ i ≤ k := by
  simp only [numberedDir, Bool.or_eq_true, List.any_eq_true, List.mem_range, beq_iff_eq,
    gettext] at h
  rcases h with h | ⟨j, hj, h⟩
  · exfalso
    have h2 := congrArg String.data h
    rw [g_build_filename_numbered, g_build_filename_base] at h2
    have h3 := List.append_cancel_left h2
    simp [g_strdup_printf_screenshot, String.data_append] at h3
  · have h2 := congrArg String.data h
    rw [g_build_filename_numbered, g_build_filename_numbered] at h2
    have h3 := g_strdup_printf_screenshot_injective (String.ext (List.append_cancel_left h2))
    omega

/-- The loop started at `1` over candidates occupied below `n` and free at `n`,
with `n` a value of the counter, returns candidate `n` after `n` probes. -/
theorem searchLoop_least_free (fs : String → Bool) (uri : String) (n fuel : Nat)
    (probes : List String)
    (hpos : 1 ≤ n) (hmax : (n : Int) ≤ 2147483647)
    (hocc : ∀ k : Nat, 1 ≤ k → k < n →
      fs (g_build_filename uri (g_strdup_printf_screenshot k)) = true)
    (hfree : fs (g_build_filename uri (g_strdup_printf_screenshot n)) = false)
    (hfuel : n ≤ fuel) :
    searchLoop fs uri fuel 1 probes =
      some ⟨some (g_strdup_printf_screenshot n),
        probes ++ (List.range n).map fun (k : Nat) =>
          g_build_filename uri (g_strdup_printf_screenshot ((k : Int) + 1))⟩ := by
  obtain ⟨m, rfl⟩ : ∃ m, n = m + 1 := ⟨n - 1, by omega⟩
  obtain ⟨f, rfl⟩ : ∃ f, fuel = m + (f + 1) := ⟨fuel - (m + 1), by omega⟩
  have hskip := searchLoop_skip fs uri m (f + 1) 1 probes (by omega)
    (by push_cast at hmax; omega)
    (by
      intro j hj
      have := hocc (j + 1) (by omega) (by omega)
      have e : (1 : Int) + (j : Int) = ((j + 1 : Nat) : Int) := by push_cast; ring
      rw [e]; exact this)
  have e1 : (1 : Int) + (m : Int) = ((m + 1 : Nat) : Int) := by push_cast; ring
  rw [hskip, e1, searchLoop_found fs uri f _ _ hfree]
  congr 2
  rw [List.range_succ, List.map_append]
  simp only [List.map_cons, List.map_nil, List.append_assoc]
  congr 2
  apply List.map_congr_left
  intro j _
  rw [show (1 : Int) + (j : Int) = (j : Int) + 1 by ring]

/-! ## The save-name generator: claims -/

/-- Claim C1, as amended: for a directory in which `Screenshot.png` exists and
`n` is the least positive number whose `Screenshot-n.png` is free, with `n`
within the range of the `gint` counter, the function returns `Screenshot-n.png`
once it is given `n` rounds of the loop, having probed `Screenshot.png` and the
candidates `1` to `n` in this order. -/
theorem generate_filename_least_free (fs : String → Bool) (uri : String) (n fuel : Nat)
    (hbase : fs (g_build_filename uri "Screenshot.png") = true)
    (hpos : 1 ≤ n) (hmax : (n : Int) ≤ G_MAXINT)
    (hocc : ∀ k : Nat, 1 ≤ k → k < n →
      fs (g_build_filename uri (g_strdup_printf_screenshot k)) = true)
    (hfree : fs (g_build_filename uri (g_strdup_printf_screenshot n)) = false)
    (hfuel : n ≤ fuel) :
    generate_filename_for_uri fs fuel (some uri) =
      some ⟨some ("Screenshot-" ++ toString n ++ ".png"),
        g_build_filename uri "Screenshot.png" ::
          (List.range n).map fun (k : Nat) =>
            g_build_filename uri (g_strdup_printf_screenshot ((k : Int) + 1))⟩ := by
  have hgen : generate_filename_for_uri fs fuel (some uri) =
      searchLoop fs uri fuel 1 [g_build_filename uri "Screenshot.png"] := by
    simp [generate_filename_for_uri, gettext, hbase]
  have hname : g_strdup_printf_screenshot (n : Int) =
      "Screenshot-" ++ toString n ++ ".png" := rfl
  rw [hgen, searchLoop_least_free fs uri n fuel _ hpos hmax hocc hfree hfuel, hname]
  rfl

/-- The special case of a directory that holds exactly `Screenshot.png` and
`Screenshot-1.png` to `Screenshot-k.png`, with `k` below `G_MAXINT`: the function
returns `Screenshot-(k+1).png`. -/
theorem generate_filename_numbered_dir (uri : String) (k fuel : Nat)
    (hk : (k : Int) < G_MAXINT) (hfuel : k + 1 ≤ fuel) :
    generate_filename_for_uri (numberedDir uri k) fuel (some uri) =
      some ⟨some ("Screenshot-" ++ toString (k + 1) ++ ".png"),
        g_build_filename uri "Screenshot.png" ::
          (List.range (k + 1)).map fun (j : Nat) =>
            g_build_filename uri (g_strdup_printf_screenshot ((j : Int) + 1))⟩ := by
  have hk2 : (k : Int) < 2147483647 := hk
  have hgen : generate_filename_for_uri (numberedDir uri k) fuel (some uri) =
      searchLoop (numberedDir uri k) uri fuel 1 [g_build_filename uri "Screenshot.png"] := by
    simp [generate_filename_for_uri, gettext, numberedDir_base]
  have hfree : numberedDir uri k
      (g_build_filename uri (g_strdup_printf_screenshot ((k + 1 : Nat) : Int))) = false := by
    cases h : numberedDir uri k
        (g_build_filename uri (g_strdup_printf_screenshot ((k + 1 : Nat) : Int))) with
    | false => rfl
    | true =>
      have := numberedDir_bounds uri k _ h
      push_cast at this
      omega
  have hname : g_strdup_printf_screenshot ((k + 1 : Nat) : Int) =
      "Screenshot-" ++ toString (k + 1) ++ ".png" := rfl
  rw [hgen, searchLoop_least_free (numberedDir uri k) uri (k + 1) fuel _ (by omega)
    (by push_cast; omega)
    (fun j h1 h2 => numberedDir_numbered uri k j h1 (by omega)) hfree hfuel, hname]
  rfl

/-- Claim C1, an instance: with `Screenshot.png` and `Screenshot-1.png` in
`/tmp` the function probes three paths and returns `Screenshot-2.png`. -/
theorem generate_filename_least_free_witness :
    generate_filename_for_uri (numberedDir "/tmp" 1) 2 (some "/tmp") =
      some ⟨some "Screenshot-2.png",
        ["/tmp/Screenshot.png", "/tmp/Screenshot-1.png", "/tmp/Screenshot-2.png"]⟩ :=
  generate_filename_least_free (numberedDir "/tmp" 1) "/tmp" 2 2 (by decide) (by decide)
    (by decide)
    (by
      intro k h1 h2
      obtain rfl : k = 1 := by omega
      decide)
    (by decide) (by decide)

/-- Claim C1 fails as stated: in a directory `/tmp` that holds exactly
`Screenshot.png` and `Screenshot-1.png` to `Screenshot-2147483647.png`, the least
free positive number is 2147483648, yet no amount of fuel makes the function
return `Screenshot-2147483648.png`: the `gint` counter never holds that value. -/
theorem generate_filename_past_maxint :
    numberedDir "/tmp" 2147483647 (g_build_filename "/tmp" "Screenshot.png") = true ∧
    (∀ k : Nat, 1 ≤ k → k < 2147483648 →
      numberedDir "/tmp" 2147483647
        (g_build_filename "/tmp" (g_strdup_printf_screenshot k)) = true) ∧
    numberedDir "/tmp" 2147483647
      (g_build_filename "/tmp" (g_strdup_printf_screenshot 2147483648)) = false ∧
    ∀ (fuel : Nat) (g : Generated),
      generate_filename_for_uri (numberedDir "/tmp" 2147483647) fuel (some "/tmp") = some g →
      g.name ≠ some "Screenshot-2147483648.png" := by
  refine ⟨numberedDir_base _ _, ?_, ?_, ?_⟩
  · intro k h1 h2
    exact numberedDir_numbered "/tmp" 2147483647 k h1 (by omega)
  · cases h : numberedDir "/tmp" 2147483647
        (g_build_filename "/tmp" (g_strdup_printf_screenshot 2147483648)) with
    | false => rfl
    | true =>
      have := numberedDir_bounds "/tmp" 2147483647 2147483648 h
      omega
  · intro fuel g hg hname
    have hgen : generate_filename_for_uri (numberedDir "/tmp" 2147483647) fuel (some "/tmp") =
        searchLoop (numberedDir "/tmp" 2147483647) "/tmp" fuel 1
          [g_build_filename "/tmp" "Screenshot.png"] := by
      simp [generate_filename_for_uri, gettext, numberedDir_base]
    rw [hgen] at hg
    obtain ⟨j, hj1, hj2, hn, _, _⟩ :=
      searchLoop_returns _ _ fuel 1 _ g (by omega) (by omega) hg
    rw [hn] at hname
    have e : ("Screenshot-2147483648.png" : String) = g_strdup_printf_screenshot 2147483648 := by
      decide
    rw [e] at hname
    have := g_strdup_printf_screenshot_injective (Option.some.inj hname)
    omega

/-- Claim C2: when `Screenshot.png` is free in the directory, whatever else the
directory holds, the function returns `Screenshot.png` after the single probe
of that path, without entering the loop. -/
theorem generate_filename_base_free (fs : String → Bool) (uri : String) (fuel : Nat)
    (hfree : fs (g_build_filename uri "Screenshot.png") = false) :
    generate_filename_for_uri fs fuel (some uri) =
      some ⟨some "Screenshot.png", [g_build_filename uri "Screenshot.png"]⟩ := by
  simp [generate_filename_for_uri, gettext, hfree]

/-- Claim C2, an instance: a directory `/tmp` that holds only
`Screenshot-1.png`. -/
theorem generate_filename_base_free_witness :
    generate_filename_for_uri (fun path => path == "/tmp/Screenshot-1.png") 0 (some "/tmp") =
      some ⟨some "Screenshot.png", ["/tmp/Screenshot.png"]⟩ :=
  generate_filename_base_free (fun path => path == "/tmp/Screenshot-1.png") "/tmp" 0
    (by decide)

/-- Claim C3 fails as stated: for the empty string as directory the function
does not fail; with `Screenshot.png` absent from the working directory it makes
one probe, of the relative path `Screenshot.png`, and returns that name. -/
theorem generate_filename_empty_directory :
    generate_filename_for_uri (fun _ => false) 0 (some "") =
      some ⟨some "Screenshot.png", ["Screenshot.png"]⟩ := by
  decide

/-- Claim C3, as amended: for a `NULL` directory the function returns `NULL`
and probes nothing; the empty string is a directory like any other: whenever
the function returns for it, it returns a name and has probed at least the
relative path `Screenshot.png`, first. -/
theorem generate_filename_null_only (fs : String → Bool) (fuel : Nat) :
    generate_filename_for_uri fs fuel none = some ⟨none, []⟩ ∧
    ∀ g : Generated, generate_filename_for_uri fs fuel (some "") = some g →
      g.name ≠ none ∧ g.probes.head? = some "Screenshot.png" := by
  refine ⟨rfl, ?_⟩
  intro g hg
  have e : g_build_filename "" "Screenshot.png" = "Screenshot.png" := by decide
  cases hfs : fs "Screenshot.png" with
  | false =>
    have hgen : generate_filename_for_uri fs fuel (some "") =
        some ⟨some "Screenshot.png", ["Screenshot.png"]⟩ := by
      simp [generate_filename_for_uri, gettext, e, hfs]
    rw [hgen] at hg
    cases hg
    simp
  | true =>
    have hgen : generate_filename_for_uri fs fuel (some "") =
        searchLoop fs "" fuel 1 ["Screenshot.png"] := by
      simp [generate_filename_for_uri, gettext, e, hfs]
    rw [hgen] at hg
    obtain ⟨j, _, _, hn, _, rest, hr⟩ :=
      searchLoop_returns _ _ fuel 1 _ g (by omega) (by omega) hg
    rw [hn, hr]
    simp

/-! ## The upload job: claims -/

theorem get_image_url_hash (parser : JsonParser) (json : String)
    (members : List (String × JsonNode)) (s : String)
    (hparse : parser json = .ok (some (.object members)))
    (hhash : json_object_get_member (some members) "Hash" = some (.value (.string s))) :
    get_image_url parser json = some s := by
  simp [get_image_url, hparse, JSON_NODE_TYPE, json_node_get_object, hhash,
    json_node_dup_string]

/-- Claim C4: when the server answers with a status from 200 to 299 and the
body parses to an object whose member `Hash` is the string `s`, `get_image_url`
returns `s`, and the job returns `TRUE`, leaves the error location empty and
emits `image-uploaded` exactly once, with `s`. -/
theorem upload_hash_reported (w : World) (job : ScreenshooterJob)
    (image_path title : Option String) (buf : List UInt8) (response : Response)
    (members : List (String × JsonNode)) (s : String)
    (hjob : job.is_job = true) (hrun : job.cancelled = false)
    (hmap : w.g_mapped_file_new image_path = some buf)
    (hresp : ∀ session msg, w.soup_session_send_message session msg = response)
    (hok : 200 ≤ response.status ∧ response.status < 300)
    (hparse : w.json_parser_load_from_data response.body = .ok (some (.object members)))
    (hhash : json_object_get_member (some members) "Hash" = some (.value (.string s))) :
    get_image_url w.json_parser_load_from_data response.body = some s ∧
    (ipfs_upload_job w job (some [.string image_path, .string title]) (some none)).ret = true ∧
    (ipfs_upload_job w job (some [.string image_path, .string title]) (some none)).error =
      some none ∧
    imagesUploaded
      (ipfs_upload_job w job (some [.string image_path, .string title]) (some none)) =
      [some s] := by
  have hurl := get_image_url_hash _ _ members s hparse hhash
  refine ⟨hurl, ?_⟩
  cases hp : w.http_proxy <;>
    simp [ipfs_upload_job, imagesUploaded, hjob, hrun, hmap, hresp, hp, hok, hurl,
      G_VALUE_HOLDS_STRING, g_value_get_string, exo_job_set_error_if_cancelled,
      SOUP_STATUS_IS_SUCCESSFUL]

/-- Claim C4, an instance: the body `{"Hash":"abc123"}` under status 200 gives
one `image-uploaded` signal carrying `abc123`. -/
theorem upload_hash_reported_witness :
    get_image_url exampleParser "\x7b\"Hash\":\"abc123\"\x7d" = some "abc123" ∧
    (ipfs_upload_job (exampleWorld ⟨200, "OK", "\x7b\"Hash\":\"abc123\"\x7d"⟩) ⟨true, false⟩
      exampleParams (some none)).ret = true ∧
    (ipfs_upload_job (exampleWorld ⟨200, "OK", "\x7b\"Hash\":\"abc123\"\x7d"⟩) ⟨true, false⟩
      exampleParams (some none)).error = some none ∧
    imagesUploaded
      (ipfs_upload_job (exampleWorld ⟨200, "OK", "\x7b\"Hash\":\"abc123\"\x7d"⟩) ⟨true, false⟩
        exampleParams (some none)) = [some "abc123"] :=
  upload_hash_reported (exampleWorld ⟨200, "OK", "\x7b\"Hash\":\"abc123\"\x7d"⟩) ⟨true, false⟩
    (some "/tmp/Screenshot.png") (some "Screenshot") [137, 80, 78, 71]
    ⟨200, "OK", "\x7b\"Hash\":\"abc123\"\x7d"⟩ [("Hash", .value (.string "abc123"))] "abc123"
    rfl rfl (by decide) (fun _ _ => rfl) (by decide) rfl rfl

theorem get_image_url_lenient (parser : JsonParser) (json : String)
    (hbad : (∃ e, parser json = .error e) ∨
      (∃ root, parser json = .ok root ∧ JSON_NODE_TYPE root ≠ .JSON_NODE_OBJECT) ∨
      (∃ members, parser json = .ok (some (.object members)) ∧
        json_object_get_member (some members) "Hash" = none)) :
    get_image_url parser json = none := by
  rcases hbad with ⟨e, h⟩ | ⟨root, h, hroot⟩ | ⟨members, h, hmem⟩
  · simp [get_image_url, h]
  · simp [get_image_url, h, hroot]
  · simp [get_image_url, h, JSON_NODE_TYPE, json_node_get_object, hmem, json_node_dup_string]

/-- Claim C5: when the server answers with a status from 200 to 299 and the
body is rejected by the parser, or its root is not an object, or the root object
has no member `Hash`, `get_image_url` returns `NULL`, and the job still returns
`TRUE`, leaves the error location empty and emits `image-uploaded` exactly once,
with a `NULL` name. -/
theorem upload_lenient_null (w : World) (job : ScreenshooterJob)
    (image_path title : Option String) (buf : List UInt8) (response : Response)
    (hjob : job.is_job = true) (hrun : job.cancelled = false)
    (hmap : w.g_mapped_file_new image_path = some buf)
    (hresp : ∀ session msg, w.soup_session_send_message session msg = response)
    (hok : 200 ≤ response.status ∧ response.status < 300)
    (hbad : (∃ e, w.json_parser_load_from_data response.body = .error e) ∨
      (∃ root, w.json_parser_load_from_data response.body = .ok root ∧
        JSON_NODE_TYPE root ≠ .JSON_NODE_OBJECT) ∨
      (∃ members, w.json_parser_load_from_data response.body = .ok (some (.object members)) ∧
        json_object_get_member (some members) "Hash" = none)) :
    get_image_url w.json_parser_load_from_data response.body = none ∧
    (ipfs_upload_job w job (some [.string image_path, .string title]) (some none)).ret = true ∧
    (ipfs_upload_job w job (some [.string image_path, .string title]) (some none)).error =
      some none ∧
    imagesUploaded
      (ipfs_upload_job w job (some [.string image_path, .string title]) (some none)) =
      [none] := by
  have hurl := get_image_url_lenient _ _ hbad
  refine ⟨hurl, ?_⟩
  cases hp : w.http_proxy <;>
    simp [ipfs_upload_job, imagesUploaded, hjob, hrun, hmap, hresp, hp, hok, hurl,
      G_VALUE_HOLDS_STRING, g_value_get_string, exo_job_set_error_if_cancelled,
      SOUP_STATUS_IS_SUCCESSFUL]

/-- Claim C5, an instance: the body `{}` under status 200 gives one
`image-uploaded` signal carrying `NULL`, and no error. -/
theorem upload_lenient_null_witness :
    get_image_url exampleParser "\x7b\x7d" = none ∧
    (ipfs_upload_job (exampleWorld ⟨200, "OK", "\x7b\x7d"⟩) ⟨true, false⟩
      exampleParams (some none)).ret = true ∧
    (ipfs_upload_job (exampleWorld ⟨200, "OK", "\x7b\x7d"⟩) ⟨true, false⟩
      exampleParams (some none)).error = some none ∧
    imagesUploaded
      (ipfs_upload_job (exampleWorld ⟨200, "OK", "\x7b\x7d"⟩) ⟨true, false⟩
        exampleParams (some none)) = [none] :=
  upload_lenient_null (exampleWorld ⟨200, "OK", "\x7b\x7d"⟩) ⟨true, false⟩
    (some "/tmp/Screenshot.png") (some "Screenshot") [137, 80, 78, 71]
    ⟨200, "OK", "\x7b\x7d"⟩ rfl rfl (by decide) (fun _ _ => rfl) (by decide)
    (Or.inr (Or.inr ⟨[], rfl, rfl⟩))

/-- In a run that reaches the send and gets a status outside 200..299, the
error location holds the error made by `g_error_new`: the domain
`SOUP_HTTP_ERROR`, the status as stored in a `gint`, and the fixed message. -/
theorem ipfs_upload_job_http_error (w : World) (job : ScreenshooterJob)
    (image_path title : Option String) (buf : List UInt8) (response : Response)
    (hjob : job.is_job = true) (hrun : job.cancelled = false)
    (hmap : w.g_mapped_file_new image_path = some buf)
    (hresp : ∀ session msg, w.soup_session_send_message session msg = response)
    (hfail : ¬ (200 ≤ response.status ∧ response.status < 300)) :
    (ipfs_upload_job w job (some [.string image_path, .string title]) (some none)).error =
      some (some ⟨.SOUP_HTTP_ERROR, wrapInt (response.status : Int),
        "An error occurred while transferring the data to ipfs."⟩) := by
  have hneg : response.status < 200 ∨ 300 ≤ response.status := by omega
  cases hp : w.http_proxy <;>
    simp [ipfs_upload_job, hjob, hrun, hmap, hresp, hp, hneg, G_VALUE_HOLDS_STRING,
      g_value_get_string, exo_job_set_error_if_cancelled, SOUP_STATUS_IS_SUCCESSFUL,
      g_propagate_error, gettext]

/-- Claim C6, as amended: in a run that reaches the POST (well-formed
parameters, not cancelled, file mapped) exactly one message is sent; when the
returned status is outside 200..299 the job returns `FALSE`, the error location
holds an error, whose code is the status when the status is within the range of
`gint`, and no `image-uploaded` signal is emitted; when the status is inside
200..299 the job returns `TRUE` and the error location stays empty. -/
theorem upload_status_decides (w : World) (job : ScreenshooterJob)
    (image_path title : Option String) (buf : List UInt8) (response : Response)
    (hjob : job.is_job = true) (hrun : job.cancelled = false)
    (hmap : w.g_mapped_file_new image_path = some buf)
    (hresp : ∀ session msg, w.soup_session_send_message session msg = response) :
    (messagesSent
      (ipfs_upload_job w job (some [.string image_path, .string title]) (some none))).length
      = 1 ∧
    (¬ (200 ≤ response.status ∧ response.status < 300) →
      (ipfs_upload_job w job (some [.string image_path, .string title]) (some none)).ret
        = false ∧
      (∃ e : GError,
        (ipfs_upload_job w job (some [.string image_path, .string title]) (some none)).error
          = some (some e) ∧
        ((response.status : Int) ≤ G_MAXINT → e.code = (response.status : Int))) ∧
      imagesUploaded
        (ipfs_upload_job w job (some [.string image_path, .string title]) (some none)) = []) ∧
    ((200 ≤ response.status ∧ response.status < 300) →
      (ipfs_upload_job w job (some [.string image_path, .string title]) (some none)).ret
        = true ∧
      (ipfs_upload_job w job (some [.string image_path, .string title]) (some none)).error
        = some none) := by
  by_cases hok : 200 ≤ response.status ∧ response.status < 300
  · cases hp : w.http_proxy <;>
      simp [ipfs_upload_job, imagesUploaded, messagesSent, hjob, hrun, hmap, hresp, hp, hok,
        G_VALUE_HOLDS_STRING, g_value_get_string, exo_job_set_error_if_cancelled,
        SOUP_STATUS_IS_SUCCESSFUL]
  · have herr := ipfs_upload_job_http_error w job image_path title buf response hjob hrun
      hmap hresp hok
    have hneg : response.status < 200 ∨ 300 ≤ response.status := by omega
    refine ⟨?_, fun _ => ⟨?_, ⟨_, herr, ?_⟩, ?_⟩, fun h => absurd h hok⟩
    · cases hp : w.http_proxy <;>
        simp [ipfs_upload_job, messagesSent, hjob, hrun, hmap, hresp, hp, hneg,
          G_VALUE_HOLDS_STRING, g_value_get_string, exo_job_set_error_if_cancelled,
          SOUP_STATUS_IS_SUCCESSFUL]
    · cases hp : w.http_proxy <;>
        simp [ipfs_upload_job, hjob, hrun, hmap, hresp, hp, hneg,
          G_VALUE_HOLDS_STRING, g_value_get_string, exo_job_set_error_if_cancelled,
          SOUP_STATUS_IS_SUCCESSFUL]
    · intro hmax
      have hmax2 : (response.status : Int) ≤ 2147483647 := hmax
      exact wrapInt_of_range _ (by omega) hmax2
    · cases hp : w.http_proxy <;>
        simp [ipfs_upload_job, imagesUploaded, hjob, hrun, hmap, hresp, hp, hneg,
          G_VALUE_HOLDS_STRING, g_value_get_string, exo_job_set_error_if_cancelled,
          SOUP_STATUS_IS_SUCCESSFUL]

/-- Claim C6, an instance: status 404 gives failure with an error of code 404
and no `image-uploaded` signal. -/
theorem upload_status_decides_witness :
    (ipfs_upload_job (exampleWorld ⟨404, "Not Found", ""⟩) ⟨true, false⟩
      exampleParams (some none)).ret = false ∧
    (∃ e : GError,
      (ipfs_upload_job (exampleWorld ⟨404, "Not Found", ""⟩) ⟨true, false⟩
        exampleParams (some none)).error = some (some e) ∧ e.code = 404) ∧
    imagesUploaded
      (ipfs_upload_job (exampleWorld ⟨404, "Not Found", ""⟩) ⟨true, false⟩
        exampleParams (some none)) = [] := by
  obtain ⟨h1, ⟨e, he, hc⟩, h3⟩ :=
    (upload_status_decides (exampleWorld ⟨404, "Not Found", ""⟩) ⟨true, false⟩
      (some "/tmp/Screenshot.png") (some "Screenshot") [137, 80, 78, 71]
      ⟨404, "Not Found", ""⟩ rfl rfl (by decide) (fun _ _ => rfl)).2.1 (by decide)
  exact ⟨h1, ⟨e, he, hc (by decide)⟩, h3⟩

/-- Claim C6 fails as stated: for the status 2147483648, which a `guint` can
hold and the `gint` code of the error cannot, the job returns `FALSE` with an
error whose code is not that status. -/
theorem upload_status_past_maxint :
    ∃ e : GError,
      (ipfs_upload_job (exampleWorld ⟨2147483648, "", ""⟩) ⟨true, false⟩
        exampleParams (some none)).error = some (some e) ∧
      e.code ≠ 2147483648 :=
  ⟨⟨.SOUP_HTTP_ERROR, -2147483648,
    "An error occurred while transferring the data to ipfs."⟩, by decide, by decide⟩

/-- Claim C7, as amended: for a status `c` outside 200..299 the error left by the
job has the domain `SOUP_HTTP_ERROR` and the fixed message
"An error occurred while transferring the data to ipfs.", and its code is `c`
when `c` is within the range of `gint`; the reason phrase of the server is no
part of the error. -/
theorem upload_http_error_fixed_message (w : World) (job : ScreenshooterJob)
    (image_path title : Option String) (buf : List UInt8) (response : Response)
    (hjob : job.is_job = true) (hrun : job.cancelled = false)
    (hmap : w.g_mapped_file_new image_path = some buf)
    (hresp : ∀ session msg, w.soup_session_send_message session msg = response)
    (hfail : ¬ (200 ≤ response.status ∧ response.status < 300)) :
    ∃ e : GError,
      (ipfs_upload_job w job (some [.string image_path, .string title]) (some none)).error =
        some (some e) ∧
      e.domain = .SOUP_HTTP_ERROR ∧
      e.message = "An error occurred while transferring the data to ipfs." ∧
      ((response.status : Int) ≤ G_MAXINT → e.code = (response.status : Int)) := by
  refine ⟨_, ipfs_upload_job_http_error w job image_path title buf response hjob hrun
    hmap hresp hfail, rfl, rfl, ?_⟩
  intro hmax
  have hmax2 : (response.status : Int) ≤ 2147483647 := hmax
  exact wrapInt_of_range _ (by omega) hmax2

/-- Claim C7, an instance: status 503 with the reason "Service Unavailable"
leaves the code 503 and the fixed message. -/
theorem upload_http_error_fixed_message_witness :
    ∃ e : GError,
      (ipfs_upload_job (exampleWorld ⟨503, "Service Unavailable", ""⟩) ⟨true, false⟩
        exampleParams (some none)).error = some (some e) ∧
      e.domain = .SOUP_HTTP_ERROR ∧
      e.message = "An error occurred while transferring the data to ipfs." ∧
      e.code = 503 := by
  obtain ⟨e, he, hd, hm, hc⟩ :=
    upload_http_error_fixed_message (exampleWorld ⟨503, "Service Unavailable", ""⟩)
      ⟨true, false⟩ (some "/tmp/Screenshot.png") (some "Screenshot") [137, 80, 78, 71]
      ⟨503, "Service Unavailable", ""⟩ rfl rfl (by decide) (fun _ _ => rfl) (by decide)
  exact ⟨e, he, hd, hm, hc (by decide)⟩

/-- Claim C7 fails as stated: for status 500 with the reason phrase
"Internal Server Error" the job leaves an error with code 500 whose message is
not the reason phrase. -/
theorem upload_http_error_drops_reason :
    ∃ e : GError,
      (ipfs_upload_job (exampleWorld ⟨500, "Internal Server Error", ""⟩) ⟨true, false⟩
        exampleParams (some none)).error = some (some e) ∧
      e.code = 500 ∧
      e.message = "An error occurred while transferring the data to ipfs." ∧
      e.message ≠ "Internal Server Error" :=
  ⟨⟨.SOUP_HTTP_ERROR, 500, "An error occurred while transferring the data to ipfs."⟩,
    by decide, by decide, by decide, by decide⟩

/-- Claim C8: when the cancellation flag is set at the start of a run with
well-formed parameters, the job returns `FALSE` with the error
`G_IO_ERROR_CANCELLED` in the error location, and its only effect is the tag
`jobtype` put on the job object: no session is created, neither the environment
nor the file is read, no info message is emitted, no message is sent and no
`image-uploaded` signal is emitted. -/
theorem upload_cancelled_before_io (w : World) (job : ScreenshooterJob)
    (image_path title : Option String)
    (hjob : job.is_job = true) (hcancel : job.cancelled = true) :
    ipfs_upload_job w job (some [.string image_path, .string title]) (some none) =
      ⟨false, some (some ⟨.G_IO_ERROR, G_IO_ERROR_CANCELLED, "Operation was cancelled"⟩),
        [Action.set_data "jobtype" "ipfs"]⟩ ∧
    messagesSent
      (ipfs_upload_job w job (some [.string image_path, .string title]) (some none)) = [] ∧
    imagesUploaded
      (ipfs_upload_job w job (some [.string image_path, .string title]) (some none)) = [] := by
  simp [ipfs_upload_job, imagesUploaded, messagesSent, hjob, hcancel, G_VALUE_HOLDS_STRING,
    exo_job_set_error_if_cancelled, g_propagate_error, gettext]

/-- Claim C8, an instance: a cancelled job over a file that could be mapped and
a server that would answer 200. -/
theorem upload_cancelled_before_io_witness :
    ipfs_upload_job (exampleWorld ⟨200, "OK", "\x7b\"Hash\":\"abc123\"\x7d"⟩) ⟨true, true⟩
      exampleParams (some none) =
      ⟨false, some (some ⟨.G_IO_ERROR, 19, "Operation was cancelled"⟩),
        [Action.set_data "jobtype" "ipfs"]⟩ :=
  (upload_cancelled_before_io (exampleWorld ⟨200, "OK", "\x7b\"Hash\":\"abc123\"\x7d"⟩)
    ⟨true, true⟩ (some "/tmp/Screenshot.png") (some "Screenshot") rfl rfl).1

/-- Claim C9 against the code: for a source path that cannot be mapped the job
returns `FALSE` after the attempt to map the file and sends no message, but the
error location is still empty: no error of any kind is set. -/
theorem upload_unmappable_sets_no_error :
    ipfs_upload_job (exampleWorld ⟨200, "OK", "\x7b\"Hash\":\"abc123\"\x7d"⟩) ⟨true, false⟩
      (some [.string (some "/tmp/missing.png"), .string (some "Screenshot")]) (some none) =
      ⟨false, some none,
        [Action.set_data "jobtype" "ipfs", Action.session_new, Action.getenv "http_proxy",
          Action.map_file (some "/tmp/missing.png")]⟩ := by
  decide

/-- Claim C10 against the code: a run whose source file cannot be mapped returns
failure although it has set no error and emitted no `image-uploaded` signal, so
failure does not come with exactly one error. -/
theorem upload_failure_without_error :
    (ipfs_upload_job (exampleWorld ⟨200, "OK", "\x7b\x7d"⟩) ⟨true, false⟩
      (some [.string (some "/home/user/gone.png"), .string (some "Screenshot")]) (some none)).ret = false ∧
    (ipfs_upload_job (exampleWorld ⟨200, "OK", "\x7b\x7d"⟩) ⟨true, false⟩
      (some [.string (some "/home/user/gone.png"), .string (some "Screenshot")]) (some none)).error
      = some none ∧
    imagesUploaded
      (ipfs_upload_job (exampleWorld ⟨200, "OK", "\x7b\x7d"⟩) ⟨true, false⟩
        (some [.string (some "/home/user/gone.png"), .string (some "Screenshot")]) (some none)) = [] := by
  decide

/-! ## The upload request: claims -/

/-- A run with well-formed parameters that is not cancelled and maps the file
sends exactly one message: the `POST` of the three parts to the upload URL. -/
theorem ipfs_upload_job_message (w : World) (job : ScreenshooterJob)
    (image_path title : Option String) (buf : List UInt8)
    (hjob : job.is_job = true) (hrun : job.cancelled = false)
    (hmap : w.g_mapped_file_new image_path = some buf) :
    messagesSent
      (ipfs_upload_job w job (some [.string image_path, .string title]) (some none)) =
      [⟨"POST", upload_url, SOUP_FORM_MIME_TYPE_MULTIPART,
        [Part.form_string "name" "keyphrase", Part.form_string "name" "user",
          Part.form_file "file" image_path none buf]⟩] := by
  cases hp : w.http_proxy <;>
    cases hs : SOUP_STATUS_IS_SUCCESSFUL
      (w.soup_session_send_message ⟨w.http_proxy.bind w.soup_uri_new⟩
        ⟨"POST", upload_url, SOUP_FORM_MIME_TYPE_MULTIPART,
          [Part.form_string "name" "keyphrase", Part.form_string "name" "user",
            Part.form_file "file" image_path none buf]⟩).status <;>
    simp [hp] at hs <;>
    simp [ipfs_upload_job, messagesSent, hjob, hrun, hmap, hp, hs, G_VALUE_HOLDS_STRING,
      g_value_get_string, exo_job_set_error_if_cancelled]

/-- Claim C11, as amended: the file name attached to the `file` part of the
request is the source path exactly as it was given to the job, directories
included. -/
theorem upload_file_name_is_source_path (w : World) (job : ScreenshooterJob)
    (image_path title : Option String) (buf : List UInt8)
    (hjob : job.is_job = true) (hrun : job.cancelled = false)
    (hmap : w.g_mapped_file_new image_path = some buf) :
    (messagesSent
      (ipfs_upload_job w job (some [.string image_path, .string title]) (some none))).map
      fileNames = [[image_path]] := by
  rw [ipfs_upload_job_message w job image_path title buf hjob hrun hmap]
  rfl

/-- Claim C11, an instance: the source path `/tmp/Screenshot.png`. -/
theorem upload_file_name_is_source_path_witness :
    (messagesSent
      (ipfs_upload_job (exampleWorld ⟨200, "OK", "\x7b\x7d"⟩) ⟨true, false⟩ exampleParams
        (some none))).map fileNames = [[some "/tmp/Screenshot.png"]] :=
  upload_file_name_is_source_path (exampleWorld ⟨200, "OK", "\x7b\x7d"⟩) ⟨true, false⟩
    (some "/tmp/Screenshot.png") (some "Screenshot") [137, 80, 78, 71] rfl rfl (by decide)

/-- Claim C11 fails as stated: for the source path `/tmp/Screenshot.png` the file
part carries the file name `/tmp/Screenshot.png`, not the last component
`Screenshot.png`. -/
theorem upload_file_name_not_basename :
    (messagesSent
      (ipfs_upload_job (exampleWorld ⟨200, "OK", "\x7b\x7d"⟩) ⟨true, false⟩
        (some [.string (some "/tmp/Screenshot.png"), .string (some "Screenshot")])
        (some none))).map fileNames = [[some "/tmp/Screenshot.png"]] ∧
    (messagesSent
      (ipfs_upload_job (exampleWorld ⟨200, "OK", "\x7b\x7d"⟩) ⟨true, false⟩
        (some [.string (some "/tmp/Screenshot.png"), .string (some "Screenshot")])
        (some none))).map fileNames ≠ [[some "Screenshot.png"]] := by
  decide

/-- Claim C12: the one message of a run that reaches the send is a `POST` to the
fixed upload URL with a `multipart/form-data` body of exactly three parts in
this order: the form field `name` with value `keyphrase`, the form field `name`
with value `user`, and the file part `file` with the mapped bytes; and the title
has no influence at all: two runs that differ only in the title leave the same
result, effects included. -/
theorem upload_request_fixed (w : World) (job : ScreenshooterJob)
    (image_path title title2 : Option String) (buf : List UInt8)
    (hjob : job.is_job = true) (hrun : job.cancelled = false)
    (hmap : w.g_mapped_file_new image_path = some buf) :
    (∃ file_name content_type,
      messagesSent
        (ipfs_upload_job w job (some [.string image_path, .string title]) (some none)) =
        [⟨"POST", "https://api.globalupload.io/transport/add", "multipart/form-data",
          [Part.form_string "name" "keyphrase", Part.form_string "name" "user",
            Part.form_file "file" file_name content_type buf]⟩]) ∧
    ipfs_upload_job w job (some [.string image_path, .string title]) (some none) =
      ipfs_upload_job w job (some [.string image_path, .string title2]) (some none) := by
  refine ⟨⟨image_path, none, ?_⟩, ?_⟩
  · rw [ipfs_upload_job_message w job image_path title buf hjob hrun hmap]
    rfl
  · simp [ipfs_upload_job, G_VALUE_HOLDS_STRING, g_value_get_string]

/-- Claim C12, an instance: the titles `Screenshot` and `Holiday`. -/
theorem upload_request_fixed_witness :
    ipfs_upload_job (exampleWorld ⟨200, "OK", "\x7b\x7d"⟩) ⟨true, false⟩
      (some [.string (some "/tmp/Screenshot.png"), .string (some "Screenshot")]) (some none) =
    ipfs_upload_job (exampleWorld ⟨200, "OK", "\x7b\x7d"⟩) ⟨true, false⟩
      (some [.string (some "/tmp/Screenshot.png"), .string (some "Holiday")]) (some none) :=
  (upload_request_fixed (exampleWorld ⟨200, "OK", "\x7b\x7d"⟩) ⟨true, false⟩
    (some "/tmp/Screenshot.png") (some "Screenshot") (some "Holiday") [137, 80, 78, 71]
    rfl rfl (by decide)).2

/-! ## The order of the effects: claims -/

/-- A run that gets past the checks of its parameters and is not cancelled, by
the outcome of the mapping: nothing is sent and no info message is emitted, or
one message is sent, preceded by exactly one info message. -/
theorem ipfs_upload_job_protocol_run (w : World) (job : ScreenshooterJob)
    (image_path title : Option String) (error : ErrorLocation)
    (hjob : job.is_job = true) (hrun : job.cancelled = false)
    (herr : (error == none || error == some none) = true) :
    (messagesSent
        (ipfs_upload_job w job (some [.string image_path, .string title]) error) = [] ∧
      infoMessages
        (ipfs_upload_job w job (some [.string image_path, .string title]) error) = []) ∨
    (∃ session msg,
      messagesSent
        (ipfs_upload_job w job (some [.string image_path, .string title]) error) = [msg] ∧
      infoAndSend
        (ipfs_upload_job w job (some [.string image_path, .string title]) error) =
        [Action.info_message "Upload the screenshot...",
          Action.send_message session msg]) := by
  cases hm : w.g_mapped_file_new image_path with
  | none =>
    left
    cases hp : w.http_proxy <;>
      simp [ipfs_upload_job, messagesSent, infoMessages, hjob, hrun, herr, hm, hp,
        G_VALUE_HOLDS_STRING, g_value_get_string, exo_job_set_error_if_cancelled]
  | some buf =>
    right
    refine ⟨⟨w.http_proxy.bind w.soup_uri_new⟩,
      ⟨"POST", upload_url, SOUP_FORM_MIME_TYPE_MULTIPART,
        [Part.form_string "name" "keyphrase", Part.form_string "name" "user",
          Part.form_file "file" image_path none buf]⟩, ?_, ?_⟩ <;>
    cases hp : w.http_proxy <;>
      cases hs : SOUP_STATUS_IS_SUCCESSFUL
        (w.soup_session_send_message ⟨w.http_proxy.bind w.soup_uri_new⟩
          ⟨"POST", upload_url, SOUP_FORM_MIME_TYPE_MULTIPART,
            [Part.form_string "name" "keyphrase", Part.form_string "name" "user",
              Part.form_file "file" image_path none buf]⟩).status <;>
      simp [hp] at hs <;>
      simp [ipfs_upload_job, messagesSent, infoAndSend, hjob, hrun, herr, hm, hp, hs,
        G_VALUE_HOLDS_STRING, g_value_get_string, exo_job_set_error_if_cancelled, gettext]

/-- Every run either sends nothing and emits no info message, or sends exactly
one message, preceded by exactly one info message. -/
theorem ipfs_upload_job_protocol (w : World) (job : ScreenshooterJob)
    (param_values : Option (List GValue)) (error : ErrorLocation) :
    (messagesSent (ipfs_upload_job w job param_values error) = [] ∧
      infoMessages (ipfs_upload_job w job param_values error) = []) ∨
    (∃ session msg,
      messagesSent (ipfs_upload_job w job param_values error) = [msg] ∧
      infoAndSend (ipfs_upload_job w job param_values error) =
        [Action.info_message "Upload the screenshot...",
          Action.send_message session msg]) := by
  cases hj : job.is_job with
  | false => left; simp [ipfs_upload_job, hj, messagesSent, infoMessages]
  | true =>
    rcases param_values with _ | pv
    · left; simp [ipfs_upload_job, hj, messagesSent, infoMessages]
    · rcases pv with _ | ⟨v0, _ | ⟨v1, _ | ⟨v2, rest⟩⟩⟩
      · left; simp [ipfs_upload_job, hj, messagesSent, infoMessages]
      · left; simp [ipfs_upload_job, hj, messagesSent, infoMessages]
      · cases v0 with
        | other =>
          left; simp [ipfs_upload_job, hj, messagesSent, infoMessages, G_VALUE_HOLDS_STRING]
        | string image_path =>
          cases v1 with
          | other =>
            left
            simp [ipfs_upload_job, hj, messagesSent, infoMessages, G_VALUE_HOLDS_STRING]
          | string title =>
            cases he : (error == none || error == some none) with
            | false =>
              left
              simp [ipfs_upload_job, hj, messagesSent, infoMessages, G_VALUE_HOLDS_STRING, he]
            | true =>
              cases hc : job.cancelled with
              | true =>
                left
                simp [ipfs_upload_job, hj, messagesSent, infoMessages, G_VALUE_HOLDS_STRING,
                  he, hc, exo_job_set_error_if_cancelled]
              | false => exact ipfs_upload_job_protocol_run w job image_path title error hj hc he
      · left; simp [ipfs_upload_job, hj, messagesSent, infoMessages]

/-- Claim C13: in every run that sends the POST, the info messages and sends are
exactly one info message followed by the one send; in every run that sends
nothing (parameters refused, job cancelled, file not mapped) no info message is
emitted. -/
theorem upload_info_before_post (w : World) (job : ScreenshooterJob)
    (param_values : Option (List GValue)) (error : ErrorLocation) :
    (messagesSent (ipfs_upload_job w job param_values error) ≠ [] →
      ∃ session msg,
        infoAndSend (ipfs_upload_job w job param_values error) =
          [Action.info_message "Upload the screenshot...",
            Action.send_message session msg]) ∧
    (messagesSent (ipfs_upload_job w job param_values error) = [] →
      infoMessages (ipfs_upload_job w job param_values error) = []) := by
  rcases ipfs_upload_job_protocol w job param_values error with ⟨h1, h2⟩ | ⟨s, m, h1, h2⟩
  · exact ⟨fun h => absurd h1 h, fun _ => h2⟩
  · refine ⟨fun _ => ⟨s, m, h2⟩, fun h => ?_⟩
    rw [h1] at h
    cases h

/-- Claim C13, an instance: a run that sends the POST, and a cancelled run. -/
theorem upload_info_before_post_witness :
    (∃ session msg,
      infoAndSend
        (ipfs_upload_job (exampleWorld ⟨200, "OK", "\x7b\x7d"⟩) ⟨true, false⟩ exampleParams
          (some none)) =
        [Action.info_message "Upload the screenshot...",
          Action.send_message session msg]) ∧
    infoMessages
      (ipfs_upload_job (exampleWorld ⟨200, "OK", "\x7b\x7d"⟩) ⟨true, true⟩ exampleParams
        (some none)) = [] :=
  ⟨(upload_info_before_post (exampleWorld ⟨200, "OK", "\x7b\x7d"⟩) ⟨true, false⟩
      exampleParams (some none)).1 (by decide),
    (upload_info_before_post (exampleWorld ⟨200, "OK", "\x7b\x7d"⟩) ⟨true, true⟩
      exampleParams (some none)).2 (by decide)⟩

/-- Claim C17, as amended: in a run that reaches the send, the property
`proxy-uri` of the session is set exactly when the variable `http_proxy` is set,
to what `soup_uri_new` makes of its value, and the message is sent with that
session; so the request goes through a proxy exactly when the variable is set
and its value is accepted as a URI, and when the variable is unset the session
is left as created. -/
theorem upload_proxy_override (w : World) (job : ScreenshooterJob)
    (image_path title : Option String) (buf : List UInt8)
    (hjob : job.is_job = true) (hrun : job.cancelled = false)
    (hmap : w.g_mapped_file_new image_path = some buf) :
    proxyOverrides
      (ipfs_upload_job w job (some [.string image_path, .string title]) (some none)) =
      (match w.http_proxy with
        | some value => [w.soup_uri_new value]
        | none => []) ∧
    sessionsUsed
      (ipfs_upload_job w job (some [.string image_path, .string title]) (some none)) =
      [⟨w.http_proxy.bind w.soup_uri_new⟩] := by
  cases hp : w.http_proxy <;>
    cases hs : SOUP_STATUS_IS_SUCCESSFUL
      (w.soup_session_send_message ⟨w.http_proxy.bind w.soup_uri_new⟩
        ⟨"POST", upload_url, SOUP_FORM_MIME_TYPE_MULTIPART,
          [Part.form_string "name" "keyphrase", Part.form_string "name" "user",
            Part.form_file "file" image_path none buf]⟩).status <;>
    simp [hp] at hs <;>
    simp [ipfs_upload_job, proxyOverrides, sessionsUsed, hjob, hrun, hmap, hp, hs,
      G_VALUE_HOLDS_STRING, g_value_get_string, exo_job_set_error_if_cancelled]

/-- Claim C17, an instance: with `http_proxy` set to an absolute URI the session
that sends the message has that URI as its proxy. -/
theorem upload_proxy_override_witness :
    proxyOverrides
      (ipfs_upload_job (proxyWorld (some "http://proxy.example.com:3128")) ⟨true, false⟩
        exampleParams (some none)) = [some "http://proxy.example.com:3128"] ∧
    sessionsUsed
      (ipfs_upload_job (proxyWorld (some "http://proxy.example.com:3128")) ⟨true, false⟩
        exampleParams (some none)) = [⟨some "http://proxy.example.com:3128"⟩] :=
  upload_proxy_override (proxyWorld (some "http://proxy.example.com:3128")) ⟨true, false⟩
    (some "/tmp/Screenshot.png") (some "Screenshot") [137, 80, 78, 71] rfl rfl (by decide)

/-- Claim C17 fails as stated: with `http_proxy` set to the non-empty text
`proxy.example.com`, which has no scheme and is no URI for `soup_uri_new`, the
message is sent by a session without proxy; and with `http_proxy` set to the
empty string the property `proxy-uri` is still set on the session, to `NULL`. -/
theorem upload_proxy_not_by_emptiness :
    sessionsUsed
      (ipfs_upload_job (proxyWorld (some "proxy.example.com")) ⟨true, false⟩
        exampleParams (some none)) = [⟨none⟩] ∧
    proxyOverrides
      (ipfs_upload_job (proxyWorld (some "")) ⟨true, false⟩ exampleParams (some none)) =
      [none] ∧
    proxyOverrides
      (ipfs_upload_job (proxyWorld none) ⟨true, false⟩ exampleParams (some none)) = [] := by
  decide

/-! ## The save workflow: claims -/

/-- A name returned for a directory is `Screenshot.png` or a numbered candidate
for a value of the counter, and its path was free when it was probed. -/
theorem generate_filename_for_uri_free (fs : String → Bool) (uri : String) (fuel : Nat)
    (g : Generated) (h : generate_filename_for_uri fs fuel (some uri) = some g) :
    ∃ f, g.name = some f ∧ fs (g_build_filename uri f) = false ∧
      (f = "Screenshot.png" ∨
        ∃ j : Int, -2147483648 ≤ j ∧ j ≤ 2147483647 ∧ f = g_strdup_printf_screenshot j) := by
  cases hfs : fs (g_build_filename uri "Screenshot.png") with
  | false =>
    have hgen : generate_filename_for_uri fs fuel (some uri) =
        some ⟨some "Screenshot.png", [g_build_filename uri "Screenshot.png"]⟩ := by
      simp [generate_filename_for_uri, gettext, hfs]
    rw [hgen] at h
    cases h
    exact ⟨"Screenshot.png", rfl, hfs, Or.inl rfl⟩
  | true =>
    have hgen : generate_filename_for_uri fs fuel (some uri) =
        searchLoop fs uri fuel 1 [g_build_filename uri "Screenshot.png"] := by
      simp [generate_filename_for_uri, gettext, hfs]
    rw [hgen] at h
    obtain ⟨j, hj1, hj2, hn, hf, _⟩ :=
      searchLoop_returns _ _ fuel 1 _ g (by omega) (by omega) h
    exact ⟨_, hn, hf, Or.inr ⟨j, hj1, hj2, rfl⟩⟩

/-- When `Screenshot.png` is free in the directory, or some candidate with a
number from `1` to `G_MAXINT` is, the name generator returns the same result
with every fuel from some amount on. -/
theorem generate_filename_for_uri_returns (fs : String → Bool) (uri : String)
    (hfree : fs (g_build_filename uri "Screenshot.png") = false ∨
      ∃ n : Nat, 1 ≤ n ∧ (n : Int) ≤ G_MAXINT ∧
        fs (g_build_filename uri (g_strdup_printf_screenshot n)) = false) :
    ∃ (fuel0 : Nat) (g : Generated), ∀ fuel, fuel0 ≤ fuel →
      generate_filename_for_uri fs fuel (some uri) = some g := by
  cases hbase : fs (g_build_filename uri "Screenshot.png") with
  | false =>
    refine ⟨0, ⟨some "Screenshot.png", [g_build_filename uri "Screenshot.png"]⟩, ?_⟩
    intro fuel _
    simp [generate_filename_for_uri, gettext, hbase]
  | true =>
    have hex : ∃ n : Nat, 1 ≤ n ∧ (n : Int) ≤ G_MAXINT ∧
        fs (g_build_filename uri (g_strdup_printf_screenshot n)) = false := by
      rcases hfree with h | h
      · rw [hbase] at h; cases h
      · exact h
    classical
    have hfind := Nat.find_spec hex
    have hmin : ∀ k : Nat, 1 ≤ k → k < Nat.find hex →
        fs (g_build_filename uri (g_strdup_printf_screenshot k)) = true := by
      intro k h1 h2
      have hk := Nat.find_min hex h2
      have hle : (k : Int) ≤ G_MAXINT := by
        have h3 : ((Nat.find hex : Nat) : Int) ≤ 2147483647 := hfind.2.1
        show (k : Int) ≤ 2147483647
        omega
      cases hfs : fs (g_build_filename uri (g_strdup_printf_screenshot k)) with
      | true => rfl
      | false => exact absurd ⟨h1, hle, hfs⟩ hk
    refine ⟨Nat.find hex, ⟨some (g_strdup_printf_screenshot (Nat.find hex)),
      [g_build_filename uri "Screenshot.png"] ++ (List.range (Nat.find hex)).map
        fun (k : Nat) => g_build_filename uri (g_strdup_printf_screenshot ((k : Int) + 1))⟩,
      ?_⟩
    intro fuel hfuel
    have hgen : generate_filename_for_uri fs fuel (some uri) =
        searchLoop fs uri fuel 1 [g_build_filename uri "Screenshot.png"] := by
      simp [generate_filename_for_uri, gettext, hbase]
    rw [hgen, searchLoop_least_free fs uri (Nat.find hex) fuel _ hfind.1 hfind.2.1 hmin
      hfind.2.2 hfuel]

/-- With `show_save_dialog` false and a directory `d` for which the name
generator returns `f` with the given fuel, the function returns too; it hands
exactly the path `d/f` to `gdk_pixbuf_save`, runs no file chooser, returns that
path, shows no error when the write succeeds, and `d/f` did not exist when it
was probed. -/
theorem save_without_dialog_of_generated (w : SaveWorld) (fuel : Nat)
    (default_dir : String) (g : Generated)
    (hgen : generate_filename_for_uri w.g_file_test fuel (some default_dir) = some g) :
    ∃ f s, g.name = some f ∧
      w.g_file_test (g_build_filename default_dir f) = false ∧
      screenshooter_save_screenshot w fuel 0 (some default_dir) = some s ∧
      filesWritten s = [g_build_filename default_dir f] ∧
      dialogsRun s = 0 ∧
      s.savename = some (g_build_filename default_dir f) ∧
      (w.gdk_pixbuf_save (g_build_filename default_dir f) = none → errorsShown s = []) := by
  obtain ⟨f, hf, hfree, _⟩ := generate_filename_for_uri_free _ _ _ _ hgen
  refine ⟨f, ⟨some (g_build_filename default_dir f), g.probes,
    save_or_report w (g_build_filename default_dir f)⟩, hf, hfree, ?_, ?_, ?_, ?_, ?_⟩
  · simp [screenshooter_save_screenshot, hgen, g_build_filename_null, hf]
  · cases hw : w.gdk_pixbuf_save (g_build_filename default_dir f) <;>
      simp [filesWritten, save_or_report, g_build_filename_null, hf, hw]
  · cases hw : w.gdk_pixbuf_save (g_build_filename default_dir f) <;>
      simp [dialogsRun, save_or_report, g_build_filename_null, hf, hw]
  · simp [g_build_filename_null, hf]
  · intro hw
    simp [errorsShown, save_or_report, g_build_filename_null, hf, hw]

/-- Claim C14, as amended: for a directory `d` and a disk on which
`Screenshot.png` or some `Screenshot-n.png` with `n` from `1` to `G_MAXINT` is
absent in `d`, the function with `show_save_dialog` false returns once it has
enough fuel, always with the same result: the name generator returns a name `f`,
exactly the path `d/f` is handed to `gdk_pixbuf_save`, no file chooser is run,
`d/f` is the returned path, no error is shown when the write succeeds, and `d/f`
did not exist when it was probed. -/
theorem save_without_dialog (w : SaveWorld) (default_dir : String)
    (hfree : w.g_file_test (g_build_filename default_dir "Screenshot.png") = false ∨
      ∃ n : Nat, 1 ≤ n ∧ (n : Int) ≤ G_MAXINT ∧
        w.g_file_test (g_build_filename default_dir (g_strdup_printf_screenshot n)) = false) :
    ∃ (fuel0 : Nat) (f : String) (s : Saved),
      w.g_file_test (g_build_filename default_dir f) = false ∧
      filesWritten s = [g_build_filename default_dir f] ∧
      dialogsRun s = 0 ∧
      s.savename = some (g_build_filename default_dir f) ∧
      (w.gdk_pixbuf_save (g_build_filename default_dir f) = none → errorsShown s = []) ∧
      ∀ fuel, fuel0 ≤ fuel →
        (∃ g, generate_filename_for_uri w.g_file_test fuel (some default_dir) = some g ∧
          g.name = some f) ∧
        screenshooter_save_screenshot w fuel 0 (some default_dir) = some s := by
  obtain ⟨fuel0, g, hg⟩ := generate_filename_for_uri_returns w.g_file_test default_dir hfree
  obtain ⟨f, hf, hfr, _⟩ := generate_filename_for_uri_free _ _ _ _ (hg fuel0 (Nat.le_refl _))
  refine ⟨fuel0, f, ⟨some (g_build_filename default_dir f), g.probes,
    save_or_report w (g_build_filename default_dir f)⟩, hfr, ?_, ?_, rfl, ?_, ?_⟩
  · cases hw : w.gdk_pixbuf_save (g_build_filename default_dir f) <;>
      simp [filesWritten, save_or_report, hw]
  · cases hw : w.gdk_pixbuf_save (g_build_filename default_dir f) <;>
      simp [dialogsRun, save_or_report, hw]
  · intro hw
    simp [errorsShown, save_or_report, hw]
  · intro fuel hfuel
    refine ⟨⟨g, hg fuel hfuel, hf⟩, ?_⟩
    simp [screenshooter_save_screenshot, hg fuel hfuel, g_build_filename_null, hf]

/-- Claim C14, an instance: the directory `/tmp/shots` without screenshots; the
file is written to `/tmp/shots/Screenshot.png` and that path is returned. -/
theorem save_without_dialog_witness :
    (∃ (fuel0 : Nat) (f : String) (s : Saved),
      emptyDisk.g_file_test (g_build_filename "/tmp/shots" f) = false ∧
      filesWritten s = [g_build_filename "/tmp/shots" f] ∧
      dialogsRun s = 0 ∧
      s.savename = some (g_build_filename "/tmp/shots" f) ∧
      (emptyDisk.gdk_pixbuf_save (g_build_filename "/tmp/shots" f) = none →
        errorsShown s = []) ∧
      ∀ fuel, fuel0 ≤ fuel →
        (∃ g, generate_filename_for_uri emptyDisk.g_file_test fuel (some "/tmp/shots") =
            some g ∧ g.name = some f) ∧
        screenshooter_save_screenshot emptyDisk fuel 0 (some "/tmp/shots") = some s) ∧
    screenshooter_save_screenshot emptyDisk 0 0 (some "/tmp/shots") =
      some ⟨some "/tmp/shots/Screenshot.png", ["/tmp/shots/Screenshot.png"],
        [SaveAction.pixbuf_save "/tmp/shots/Screenshot.png"]⟩ :=
  ⟨save_without_dialog emptyDisk "/tmp/shots" (Or.inl (by decide)), by decide⟩

/-- Claim C14 fails as stated: on a disk that holds a file under every path, so
that `Screenshot.png` and every numbered candidate exist in `/tmp/shots`, the
function returns for no amount of fuel, and nothing is written. -/
theorem save_full_directory :
    fullDisk.g_file_test (g_build_filename "/tmp/shots" "Screenshot.png") = true ∧
    ∀ fuel : Nat, screenshooter_save_screenshot fullDisk fuel 0 (some "/tmp/shots") = none := by
  refine ⟨rfl, ?_⟩
  intro fuel
  have hgen : generate_filename_for_uri fullDisk.g_file_test fuel (some "/tmp/shots") =
      searchLoop fullDisk.g_file_test "/tmp/shots" fuel 1
        [g_build_filename "/tmp/shots" "Screenshot.png"] := by
    simp [generate_filename_for_uri, gettext, fullDisk]
  have hnone := searchLoop_never fullDisk.g_file_test "/tmp/shots"
    [g_build_filename "/tmp/shots" "Screenshot.png"] (fun _ _ _ => rfl) fuel
  simp [screenshooter_save_screenshot, hgen, hnone]

/-- Claim C15, as amended: whenever the name generator returns, the function
returns, and for the path it hands to `gdk_pixbuf_save`: when the write fails,
exactly one error dialog is shown, with the message of the write error, and the
function returns that path; when the write succeeds no error is shown and the
function returns that same path. -/
theorem save_failure_reported (w : SaveWorld) (fuel : Nat) (show_save_dialog : Int)
    (default_dir : Option String) (g : Generated)
    (hgen : generate_filename_for_uri w.g_file_test fuel default_dir = some g) :
    ∃ s, screenshooter_save_screenshot w fuel show_save_dialog default_dir = some s ∧
      ∀ path ∈ filesWritten s,
        (∀ message, w.gdk_pixbuf_save path = some message →
          errorsShown s = [message] ∧ s.savename = some path) ∧
        (w.gdk_pixbuf_save path = none → errorsShown s = [] ∧ s.savename = some path) := by
  by_cases hshow : show_save_dialog = 0
  · refine ⟨⟨some (g_build_filename_null default_dir g.name), g.probes,
      save_or_report w (g_build_filename_null default_dir g.name)⟩, ?_, ?_⟩
    · simp [screenshooter_save_screenshot, hgen, hshow]
    · intro path hpath
      cases hw : w.gdk_pixbuf_save (g_build_filename_null default_dir g.name) <;>
        simp [filesWritten, save_or_report, hw] at hpath <;>
        subst hpath <;>
        simp [errorsShown, save_or_report, hw]
  · by_cases hacc : w.gtk_dialog_run = GTK_RESPONSE_ACCEPT
    · refine ⟨⟨some w.gtk_file_chooser_get_filename, g.probes,
        [SaveAction.dialog_run default_dir g.name] ++
          save_or_report w w.gtk_file_chooser_get_filename⟩, ?_, ?_⟩
      · simp [screenshooter_save_screenshot, hgen, hshow, hacc]
      · intro path hpath
        cases hw : w.gdk_pixbuf_save w.gtk_file_chooser_get_filename <;>
          simp [filesWritten, save_or_report, hw] at hpath <;>
          subst hpath <;>
          simp [errorsShown, save_or_report, hw]
    · refine ⟨⟨none, g.probes, [SaveAction.dialog_run default_dir g.name]⟩, ?_, ?_⟩
      · simp [screenshooter_save_screenshot, hgen, hshow, hacc]
      · intro path hpath
        simp [filesWritten] at hpath

/-- Claim C15, an instance: a write into the missing directory `/nowhere`. -/
theorem save_failure_reported_witness :
    ∃ s, screenshooter_save_screenshot noDirectory 0 0 (some "/nowhere") = some s ∧
      ∀ path ∈ filesWritten s,
        (∀ message, noDirectory.gdk_pixbuf_save path = some message →
          errorsShown s = [message] ∧ s.savename = some path) ∧
        (noDirectory.gdk_pixbuf_save path = none →
          errorsShown s = [] ∧ s.savename = some path) :=
  save_failure_reported noDirectory 0 0 (some "/nowhere")
    ⟨some "Screenshot.png", ["/nowhere/Screenshot.png"]⟩ (by decide)

/-- Claim C15 fails as stated: after the failed write into the missing directory
`/nowhere` the error is shown, but the function returns
`/nowhere/Screenshot.png`, the very value it returns when the write succeeds. -/
theorem save_failure_returns_path :
    screenshooter_save_screenshot noDirectory 0 0 (some "/nowhere") =
      some ⟨some "/nowhere/Screenshot.png", ["/nowhere/Screenshot.png"],
        [SaveAction.pixbuf_save "/nowhere/Screenshot.png",
          SaveAction.xfce_err
            "Failed to open \"/nowhere/Screenshot.png\" for writing: No such file or directory"]⟩ ∧
    (screenshooter_save_screenshot emptyDisk 0 0 (some "/nowhere")).map Saved.savename =
      (screenshooter_save_screenshot noDirectory 0 0 (some "/nowhere")).map Saved.savename := by
  decide

/-- Claim C16: with `show_save_dialog` true, whenever the name generator returns,
the function returns after running the file chooser once; when the response is
`GTK_RESPONSE_ACCEPT` exactly the path chosen by the user is written and
returned; for any other response nothing is written, no error is shown and
`NULL` is returned. -/
theorem save_with_dialog (w : SaveWorld) (fuel : Nat) (show_save_dialog : Int)
    (default_dir : Option String) (g : Generated)
    (hshow : show_save_dialog ≠ 0)
    (hgen : generate_filename_for_uri w.g_file_test fuel default_dir = some g) :
    ∃ s, screenshooter_save_screenshot w fuel show_save_dialog default_dir = some s ∧
      dialogsRun s = 1 ∧
      (w.gtk_dialog_run = GTK_RESPONSE_ACCEPT →
        filesWritten s = [w.gtk_file_chooser_get_filename] ∧
        s.savename = some w.gtk_file_chooser_get_filename) ∧
      (w.gtk_dialog_run ≠ GTK_RESPONSE_ACCEPT →
        filesWritten s = [] ∧ errorsShown s = [] ∧ s.savename = none) := by
  by_cases hacc : w.gtk_dialog_run = GTK_RESPONSE_ACCEPT
  · refine ⟨⟨some w.gtk_file_chooser_get_filename, g.probes,
      [SaveAction.dialog_run default_dir g.name] ++
        save_or_report w w.gtk_file_chooser_get_filename⟩, ?_, ?_, ?_, ?_⟩
    · simp [screenshooter_save_screenshot, hgen, hshow, hacc]
    · cases hw : w.gdk_pixbuf_save w.gtk_file_chooser_get_filename <;>
        simp [dialogsRun, save_or_report, hw]
    · intro _
      cases hw : w.gdk_pixbuf_save w.gtk_file_chooser_get_filename <;>
        simp [filesWritten, save_or_report, hw]
    · intro h
      exact absurd hacc h
  · refine ⟨⟨none, g.probes, [SaveAction.dialog_run default_dir g.name]⟩, ?_, ?_, ?_, ?_⟩
    · simp [screenshooter_save_screenshot, hgen, hshow, hacc]
    · simp [dialogsRun]
    · intro h
      exact absurd h hacc
    · intro _
      simp [filesWritten, errorsShown]

/-- Claim C16, an instance: a user who accepts with `/home/user/shot.png`, while
the generated candidate is `Screenshot.png` in `/tmp/shots`. -/
theorem save_with_dialog_witness :
    (∃ s, screenshooter_save_screenshot acceptingUser 0 1 (some "/tmp/shots") = some s ∧
      dialogsRun s = 1 ∧
      (acceptingUser.gtk_dialog_run = GTK_RESPONSE_ACCEPT →
        filesWritten s = [acceptingUser.gtk_file_chooser_get_filename] ∧
        s.savename = some acceptingUser.gtk_file_chooser_get_filename) ∧
      (acceptingUser.gtk_dialog_run ≠ GTK_RESPONSE_ACCEPT →
        filesWritten s = [] ∧ errorsShown s = [] ∧ s.savename = none)) ∧
    screenshooter_save_screenshot acceptingUser 0 1 (some "/tmp/shots") =
      some ⟨some "/home/user/shot.png", ["/tmp/shots/Screenshot.png"],
        [SaveAction.dialog_run (some "/tmp/shots") (some "Screenshot.png"),
          SaveAction.pixbuf_save "/home/user/shot.png"]⟩ ∧
    screenshooter_save_screenshot emptyDisk 0 1 (some "/tmp/shots") =
      some ⟨none, ["/tmp/shots/Screenshot.png"],
        [SaveAction.dialog_run (some "/tmp/shots") (some "Screenshot.png")]⟩ :=
  ⟨save_with_dialog acceptingUser 0 1 (some "/tmp/shots")
    ⟨some "Screenshot.png", ["/tmp/shots/Screenshot.png"]⟩ (by decide) (by decide),
    by decide, by decide⟩

/-! ## Termination of the search loop: claims -/

/-- Past `G_MAXINT` the counter wraps: when the candidates `1` to `2147483647` are
all occupied and the candidate `-2147483648` is free, the loop returns that
candidate in its round 2147483648. -/
theorem searchLoop_wraps (fs : String → Bool) (uri : String) (probes : List String)
    (hocc : ∀ k : Nat, 1 ≤ k → k ≤ 2147483647 →
      fs (g_build_filename uri (g_strdup_printf_screenshot k)) = true)
    (hfree : fs (g_build_filename uri (g_strdup_printf_screenshot (-2147483648))) = false) :
    ∃ probed, searchLoop fs uri 2147483648 1 probes =
      some ⟨some (g_strdup_printf_screenshot (-2147483648)), probed⟩ := by
  have hskip := searchLoop_skip fs uri 2147483646 2 1 probes (by omega) (by norm_num)
    (by
      intro j hj
      have := hocc (j + 1) (by omega) (by omega)
      have e : (1 : Int) + (j : Int) = ((j + 1 : Nat) : Int) := by push_cast; ring
      rw [e]; exact this)
  have e1 : (1 : Int) + ((2147483646 : Nat) : Int) = 2147483647 := by norm_num
  have hlast : fs (g_build_filename uri (g_strdup_printf_screenshot 2147483647)) = true :=
    hocc 2147483647 (by omega) (by omega)
  have hw : wrapInt (2147483647 + 1) = -2147483648 := by decide
  have hstep : ∀ pr, searchLoop fs uri 2 2147483647 pr =
      searchLoop fs uri 1 (-2147483648)
        (pr ++ [g_build_filename uri (g_strdup_printf_screenshot 2147483647)]) := by
    intro pr
    have : searchLoop fs uri (1 + 1) 2147483647 pr =
        searchLoop fs uri 1 (wrapInt (2147483647 + 1))
          (pr ++ [g_build_filename uri (g_strdup_printf_screenshot 2147483647)]) := by
      simp only [searchLoop, hlast]
      rfl
    rw [hw] at this
    exact this
  have e2 : (2147483648 : Nat) = 2147483646 + 2 := by norm_num
  rw [e2, hskip, e1, hstep, searchLoop_found fs uri 0 _ _ hfree]
  exact ⟨_, rfl⟩

/-- What the function returns while the counter stays in range: `NULL` exactly
for a `NULL` directory; for every other directory, the empty string included,
whenever it returns it returns a name whose path was free when probed, a
candidate of the loop or `Screenshot.png`; and when some candidate with a number
from `1` to `G_MAXINT` is free, so that the counter does not overflow, the
number in the name is at least `1`. -/
theorem generate_filename_null_iff (fs : String → Bool) (fuel : Nat) :
    generate_filename_for_uri fs fuel none = some ⟨none, []⟩ ∧
    (∀ (uri : String) (g : Generated),
      generate_filename_for_uri fs fuel (some uri) = some g →
      ∃ f, g.name = some f ∧ fs (g_build_filename uri f) = false ∧
        (f = "Screenshot.png" ∨
          ∃ j : Int, -2147483648 ≤ j ∧ j ≤ G_MAXINT ∧
            f = "Screenshot-" ++ toString j ++ ".png")) ∧
    (∀ (uri : String) (g : Generated),
      generate_filename_for_uri fs fuel (some uri) = some g →
      (∃ n : Nat, 1 ≤ n ∧ (n : Int) ≤ G_MAXINT ∧
        fs (g_build_filename uri (g_strdup_printf_screenshot n)) = false) →
      ∃ f, g.name = some f ∧
        (f = "Screenshot.png" ∨
          ∃ n : Nat, 1 ≤ n ∧ f = "Screenshot-" ++ toString n ++ ".png")) := by
  refine ⟨rfl, ?_, ?_⟩
  · intro uri g h
    exact generate_filename_for_uri_free fs uri fuel g h
  · intro uri g h hex
    classical
    have hfind := Nat.find_spec hex
    have hmin : ∀ k : Nat, 1 ≤ k → k < Nat.find hex →
        fs (g_build_filename uri (g_strdup_printf_screenshot k)) = true := by
      intro k h1 h2
      have hk := Nat.find_min hex h2
      have hle : (k : Int) ≤ G_MAXINT := by
        have h3 : ((Nat.find hex : Nat) : Int) ≤ 2147483647 := hfind.2.1
        show (k : Int) ≤ 2147483647
        omega
      cases hfs : fs (g_build_filename uri (g_strdup_printf_screenshot k)) with
      | true => rfl
      | false => exact absurd ⟨h1, hle, hfs⟩ hk
    cases hbase : fs (g_build_filename uri "Screenshot.png") with
    | false =>
      have hgen : generate_filename_for_uri fs fuel (some uri) =
          some ⟨some "Screenshot.png", [g_build_filename uri "Screenshot.png"]⟩ := by
        simp [generate_filename_for_uri, gettext, hbase]
      rw [hgen] at h
      cases h
      exact ⟨"Screenshot.png", rfl, Or.inl rfl⟩
    | true =>
      have hgen : generate_filename_for_uri fs fuel (some uri) =
          searchLoop fs uri fuel 1 [g_build_filename uri "Screenshot.png"] := by
        simp [generate_filename_for_uri, gettext, hbase]
      rw [hgen] at h
      by_cases hfuel : Nat.find hex ≤ fuel
      · rw [searchLoop_least_free fs uri (Nat.find hex) fuel _ hfind.1 hfind.2.1 hmin
          hfind.2.2 hfuel] at h
        cases h
        exact ⟨_, rfl, Or.inr ⟨Nat.find hex, hfind.1, rfl⟩⟩
      · have h3 : ((Nat.find hex : Nat) : Int) ≤ 2147483647 := hfind.2.1
        rw [searchLoop_short fs uri fuel _ (by omega)
          (fun k h1 h2 => hmin k h1 (by omega))] at h
        cases h

/-- Claim C19 against the code: in a directory `/tmp` that holds exactly
`Screenshot.png` and `Screenshot-1.png` to `Screenshot-2147483647.png` the
counter is incremented past `G_MAXINT`; with the overflow taken as the two's
complement wrap the function terminates, in round 2147483648 of the loop, and
returns `Screenshot--2147483648.png`, which is neither `Screenshot.png` nor
`Screenshot-n.png` for a number `n` of at least `1`. -/
theorem generate_filename_negative_number :
    (generate_filename_for_uri (numberedDir "/tmp" 2147483647) 2147483648
      (some "/tmp")).map Generated.name = some (some "Screenshot--2147483648.png") ∧
    ("Screenshot--2147483648.png" : String) ≠ "Screenshot.png" ∧
    ∀ n : Nat, 1 ≤ n →
      ("Screenshot--2147483648.png" : String) ≠ "Screenshot-" ++ toString n ++ ".png" := by
  have ename : g_strdup_printf_screenshot (-2147483648) = "Screenshot--2147483648.png" := by
    decide
  refine ⟨?_, by decide, ?_⟩
  · have hgen : generate_filename_for_uri (numberedDir "/tmp" 2147483647) 2147483648
        (some "/tmp") =
        searchLoop (numberedDir "/tmp" 2147483647) "/tmp" 2147483648 1
          [g_build_filename "/tmp" "Screenshot.png"] := by
      simp [generate_filename_for_uri, gettext, numberedDir_base]
    have hfree : numberedDir "/tmp" 2147483647
        (g_build_filename "/tmp" (g_strdup_printf_screenshot (-2147483648))) = false := by
      cases h : numberedDir "/tmp" 2147483647
          (g_build_filename "/tmp" (g_strdup_printf_screenshot (-2147483648))) with
      | false => rfl
      | true =>
        have := numberedDir_bounds "/tmp" 2147483647 (-2147483648) h
        omega
    obtain ⟨probed, hrun⟩ := searchLoop_wraps (numberedDir "/tmp" 2147483647) "/tmp"
      [g_build_filename "/tmp" "Screenshot.png"]
      (fun k h1 h2 => numberedDir_numbered "/tmp" 2147483647 k h1 h2) hfree
    rw [hgen, hrun, ename]
    rfl
  · intro n hn h
    have e : ("Screenshot-" ++ toString n ++ ".png" : String) =
        g_strdup_printf_screenshot (n : Int) := rfl
    rw [← ename, e] at h
    have := g_strdup_printf_screenshot_injective h
    omega

/-! ## The default application: claims -/

/-- The loop over the rows: without a row for `app` it changes nothing; with one
it sets `found` and leaves the last such row active. -/
theorem selectLoop_spec (app : String) :
    ∀ (l : List String) (idx : Nat) (active : Option Nat) (found : Bool),
      (app ∉ l → selectLoop app l idx active found = (active, found)) ∧
      (app ∈ l → ∃ i, selectLoop app l idx active found = (some (idx + i), true) ∧
        l[i]? = some app ∧ ∀ j, i < j → l[j]? ≠ some app) := by
  intro l
  induction l with
  | nil =>
    intro idx active found
    exact ⟨fun _ => rfl, fun h => absurd h (List.not_mem_nil _)⟩
  | cons c rest ih =>
    intro idx active found
    by_cases hc : c = app
    · subst hc
      have hstep : selectLoop c (c :: rest) idx active found =
          selectLoop c rest (idx + 1) (some idx) true := by
        simp [selectLoop]
      refine ⟨fun h => absurd (List.mem_cons_self _ _) h, fun _ => ?_⟩
      by_cases hr : c ∈ rest
      · obtain ⟨i, h1, h2, h3⟩ := (ih (idx + 1) (some idx) true).2 hr
        refine ⟨i + 1, ?_, ?_, ?_⟩
        · rw [hstep, h1]
          congr 2
          omega
        · simpa using h2
        · intro j hj
          obtain ⟨j2, rfl⟩ : ∃ j2, j = j2 + 1 := ⟨j - 1, by omega⟩
          simpa using h3 j2 (by omega)
      · refine ⟨0, ?_, ?_, ?_⟩
        · rw [hstep, (ih (idx + 1) (some idx) true).1 hr]
          rfl
        · simp
        · intro j hj
          obtain ⟨j2, rfl⟩ : ∃ j2, j = j2 + 1 := ⟨j - 1, by omega⟩
          intro hget
          have hget2 : rest[j2]? = some c := by simpa using hget
          exact hr (List.getElem?_mem hget2)
    · have hstep : selectLoop app (c :: rest) idx active found =
          selectLoop app rest (idx + 1) active found := by
        simp [selectLoop, hc]
      refine ⟨fun h => ?_, fun h => ?_⟩
      · have hr : app ∉ rest := fun hm => h (List.mem_cons_of_mem _ hm)
        rw [hstep, (ih (idx + 1) active found).1 hr]
      · have hr : app ∈ rest := by
          rcases List.mem_cons.mp h with h | h
          · exact absurd h.symm hc
          · exact h
        obtain ⟨i, h1, h2, h3⟩ := (ih (idx + 1) active found).2 hr
        refine ⟨i + 1, ?_, ?_, ?_⟩
        · rw [hstep, h1]
          congr 2
          omega
        · simpa using h2
        · intro j hj
          obtain ⟨j2, rfl⟩ : ∃ j2, j = j2 + 1 := ⟨j - 1, by omega⟩
          simpa using h3 j2 (by omega)

/-- Claim C20, as amended: after `set_default_item`, `sd->app` is the command of
some row or the sentinel `none`, and nothing else of `sd` or of the rows has
changed. For an empty list it is `none` and the active row is untouched;
conversely, when no row has the command `none`, it is `none` only for an empty
list. When some row has the prior command, `sd` is unchanged and the last such
row is the active one; otherwise `sd->app` is the command of the first row,
which is the active one. -/
theorem set_default_item_app (combobox : ComboBox) (sd : ScreenshotData) :
    ((set_default_item combobox sd).2.app = "none" ∨
      (set_default_item combobox sd).2.app ∈ combobox.commands) ∧
    (set_default_item combobox sd).2 =
      { sd with app := (set_default_item combobox sd).2.app } ∧
    (set_default_item combobox sd).1.commands = combobox.commands ∧
    (combobox.commands = [] →
      (set_default_item combobox sd).2.app = "none" ∧
      (set_default_item combobox sd).1 = combobox) ∧
    ((∀ c ∈ combobox.commands, c ≠ "none") →
      ((set_default_item combobox sd).2.app = "none" ↔ combobox.commands = [])) ∧
    (sd.app ∈ combobox.commands →
      (set_default_item combobox sd).2 = sd ∧
      ∃ i, (set_default_item combobox sd).1.active = some i ∧
        combobox.commands[i]? = some sd.app ∧
        ∀ j, i < j → combobox.commands[j]? ≠ some sd.app) ∧
    (sd.app ∉ combobox.commands →
      ∀ first rest, combobox.commands = first :: rest →
        (set_default_item combobox sd).2.app = first ∧
        (set_default_item combobox sd).1.active = some 0) := by
  obtain ⟨commands, active⟩ := combobox
  cases commands with
  | nil =>
    simp [set_default_item]
  | cons first rest =>
    by_cases hmem : sd.app ∈ first :: rest
    · obtain ⟨i, h1, h2, h3⟩ := (selectLoop_spec sd.app (first :: rest) 0 active false).2 hmem
      have hset : set_default_item ⟨first :: rest, active⟩ sd =
          (⟨first :: rest, some (0 + i)⟩, sd) := by
        simp [set_default_item, h1]
      rw [hset]
      refine ⟨Or.inr hmem, rfl, rfl, ?_, ?_, ?_, ?_⟩
      · intro h; cases h
      · intro hnone
        constructor
        · intro happ
          exact absurd happ (hnone _ hmem)
        · intro h; cases h
      · intro _
        exact ⟨rfl, i, by simp, h2, h3⟩
      · intro h
        exact absurd hmem h
    · have h1 := (selectLoop_spec sd.app (first :: rest) 0 active false).1 hmem
      have hset : set_default_item ⟨first :: rest, active⟩ sd =
          (⟨first :: rest, some 0⟩, { sd with app := first }) := by
        simp [set_default_item, h1]
      rw [hset]
      refine ⟨Or.inr (List.mem_cons_self _ _), rfl, rfl, ?_, ?_, ?_, ?_⟩
      · intro h; cases h
      · intro hnone
        constructor
        · intro happ
          exact absurd happ (hnone _ (List.mem_cons_self _ _))
        · intro h; cases h
      · intro h
        exact absurd h hmem
      · intro _ f r hfr
        cases hfr
        exact ⟨rfl, rfl⟩

/-- Claim C20, an instance: the rows `gimp`, `eog`, `gimp` with the prior command
`gimp` leave `sd` unchanged and the third row active; with the prior command
`none` the first row is taken. -/
theorem set_default_item_app_witness :
    (set_default_item ⟨["gimp", "eog", "gimp"], none⟩ ⟨0, 1, 0, 0, none, "gimp"⟩).2 =
      ⟨0, 1, 0, 0, none, "gimp"⟩ ∧
    (∃ i, (set_default_item ⟨["gimp", "eog", "gimp"], none⟩
        ⟨0, 1, 0, 0, none, "gimp"⟩).1.active = some i ∧
      (["gimp", "eog", "gimp"] : List String)[i]? = some "gimp" ∧
      ∀ j, i < j → (["gimp", "eog", "gimp"] : List String)[j]? ≠ some "gimp") ∧
    set_default_item ⟨["gimp", "eog", "gimp"], none⟩ ⟨0, 1, 0, 0, none, "gimp"⟩ =
      (⟨["gimp", "eog", "gimp"], some 2⟩, ⟨0, 1, 0, 0, none, "gimp"⟩) ∧
    set_default_item ⟨["gimp", "eog", "gimp"], none⟩ ⟨0, 1, 0, 0, none, "none"⟩ =
      (⟨["gimp", "eog", "gimp"], some 0⟩, ⟨0, 1, 0, 0, none, "gimp"⟩) :=
  ⟨((set_default_item_app ⟨["gimp", "eog", "gimp"], none⟩
      ⟨0, 1, 0, 0, none, "gimp"⟩).2.2.2.2.2.1 (by decide)).1,
    ((set_default_item_app ⟨["gimp", "eog", "gimp"], none⟩
      ⟨0, 1, 0, 0, none, "gimp"⟩).2.2.2.2.2.1 (by decide)).2,
    by decide, by decide⟩

/-- Claim C20 fails as stated: with the single row whose command is `none` the
list is not empty, yet `sd->app` is `none` afterwards, both when the prior
command was `none` and when it was `gimp`. -/
theorem set_default_item_none_row :
    (set_default_item ⟨["none"], none⟩ ⟨0, 1, 0, 0, none, "none"⟩).2.app = "none" ∧
    (set_default_item ⟨["none"], none⟩ ⟨0, 1, 0, 0, none, "gimp"⟩).2.app = "none" ∧
    (["none"] : List String) ≠ [] := by
  decide

/-! ## The save dialog checkbox: claims -/

/-- Claim C21: the check button is initialised active exactly when
`sd->show_save_dialog` is `0`; the handler stores `0` for an active button and
`1` for an inactive one and changes no other field; so for a stored value of `0`
or `1`, initialising the button and running the handler on that state leaves
`sd` as it was, and after the handler the stored value is `0` exactly when the
button is ticked. -/
theorem show_save_dialog_inverted (sd : ScreenshotData) (active : Bool) :
    (save_checkbox_active sd = true ↔ sd.show_save_dialog = 0) ∧
    cb_show_save_dialog_toggled true sd = { sd with show_save_dialog := 0 } ∧
    cb_show_save_dialog_toggled false sd = { sd with show_save_dialog := 1 } ∧
    cb_show_save_dialog_toggled active sd =
      { sd with show_save_dialog := (cb_show_save_dialog_toggled active sd).show_save_dialog } ∧
    ((sd.show_save_dialog = 0 ∨ sd.show_save_dialog = 1) →
      cb_show_save_dialog_toggled (save_checkbox_active sd) sd = sd) ∧
    ((cb_show_save_dialog_toggled active sd).show_save_dialog = 0 ↔ active = true) := by
  refine ⟨?_, rfl, rfl, ?_, ?_, ?_⟩
  · simp [save_checkbox_active]
  · cases active <;> rfl
  · intro h
    rcases h with h | h
    · have ha : save_checkbox_active sd = true := by simp [save_checkbox_active, h]
      rw [ha, cb_show_save_dialog_toggled, if_pos rfl, ← h]
    · have ha : save_checkbox_active sd = false := by simp [save_checkbox_active, h]
      rw [ha, cb_show_save_dialog_toggled, if_neg (by decide), ← h]
  · cases active <;> simp [cb_show_save_dialog_toggled]

/-- Claim C21, an instance: with the stored value `1` the button starts unticked
and the handler stores `1` again; with `0` it starts ticked and the handler
stores `0` again. -/
theorem show_save_dialog_inverted_witness :
    cb_show_save_dialog_toggled (save_checkbox_active ⟨0, 1, 0, 0, none, "none"⟩)
      ⟨0, 1, 0, 0, none, "none"⟩ = ⟨0, 1, 0, 0, none, "none"⟩ ∧
    cb_show_save_dialog_toggled (save_checkbox_active ⟨0, 0, 0, 0, none, "none"⟩)
      ⟨0, 0, 0, 0, none, "none"⟩ = ⟨0, 0, 0, 0, none, "none"⟩ :=
  ⟨(show_save_dialog_inverted ⟨0, 1, 0, 0, none, "none"⟩ false).2.2.2.2.1 (Or.inr rfl),
    (show_save_dialog_inverted ⟨0, 0, 0, 0, none, "none"⟩ true).2.2.2.2.1 (Or.inl rfl)⟩

end Screenshooter
